import Mathlib

/-!
Shallow embedding of the vyberology-2.0 differential-codegen pipeline.

The embedding covers:
* the A5 diff builder and adjudicator (`packages/adjudicator/src/diff.ts`,
  modules `diff`, `types`, `compare`),
* the A4 dual (tree-render) generator's bundle assembly and aggregate
  hashing (`codegen.ts`),
* the shared manifest loader (`manifest-loader.ts`): the deterministic
  line-by-line YAML-subset parser, normalization with defaults,
  validation, and manifest hashing.

Modelling conventions:
* JS numbers are modelled as exact unnormalized fractions (`JSNumber`,
  an integer numerator over a positive denominator); every number this
  pipeline produces is a short decimal on which double and exact
  rational arithmetic order identically.
* SHA-256 (`crypto.createHash("sha256")...digest("hex").slice(0,16)`)
  is modelled as an abstract function parameter `sha : String → String`
  (content to truncated hex digest); every hash-equality fact is proved
  for all `sha`, hash-inequality facts instantiate a concrete `sha`.
* Wall-clock values (`new Date().toISOString()`, `Date.now()` durations)
  are explicit parameters of the functions that read the clock.
* File-system reads are explicit parameters (`Option String` content).
-/

namespace Vybe

/-! ### JS numbers

An exact fraction, kept unnormalized so that all arithmetic and
comparisons are plain `Int`/`Nat` computations.  Denominators are
always positive powers of ten here (decimal literals and their sums),
and numeric comparison is by cross-multiplication, so this orders and
adds exactly like the doubles the source manipulates. -/

/-- A JS number (exact unnormalized fraction). -/
structure JSNumber where
  num : Int
  den : Nat
deriving DecidableEq

namespace JSNumber

/-- Numeric `a < b` by cross-multiplication. -/
def ltb (a b : JSNumber) : Bool := decide (a.num * (b.den : Int) < b.num * (a.den : Int))

/-- Numeric `a <= b` by cross-multiplication. -/
def leb (a b : JSNumber) : Bool := decide (a.num * (b.den : Int) ≤ b.num * (a.den : Int))

/-- Addition. -/
def add (a b : JSNumber) : JSNumber :=
  ⟨a.num * (b.den : Int) + b.num * (a.den : Int), a.den * b.den⟩

/-- `Math.abs`. -/
def absv (a : JSNumber) : JSNumber := ⟨(a.num.natAbs : Int), a.den⟩

/-- Numeric zero test (JS falsiness of a number). -/
def isZero (a : JSNumber) : Bool := a.num = 0

/-- Strip trailing zero digits from a `k`-digit fraction part. -/
def stripZeros : Nat → Nat → Nat × Nat
  | fr, 0 => (fr, 0)
  | fr, k + 1 => if fr % 10 = 0 then stripZeros (fr / 10) k else (fr, k + 1)

/-- `String(number)` for the terminating decimals this pipeline
produces: exact shortest decimal rendering (matching how JS prints such
doubles). -/
def toStr (a : JSNumber) : String :=
  match (List.range 31).find? (fun k => 10 ^ k % a.den = 0) with
  | some k =>
    let scaled : Nat := a.num.natAbs * (10 ^ k / a.den)
    let ip := scaled / 10 ^ k
    let fk := stripZeros (scaled % 10 ^ k) k
    let sign := if a.num < 0 then "-" else ""
    if fk.2 = 0 then sign ++ toString ip
    else
      let fs := toString fk.1
      sign ++ toString ip ++ "." ++ String.mk (List.replicate (fk.2 - fs.length) '0') ++ fs
  | none => toString a.num ++ "/" ++ toString a.den

end JSNumber

/-! ### Small JS string helpers

Core `String` functions implemented by well-founded recursion
(`splitOn`, `startsWith`, `replace`, `<`) do not reduce inside the
kernel, so the operations the embedding needs are implemented over
`List Char` instead. -/

/-- Code-unit-lexicographic `a < b` on (ASCII) strings. -/
def charListLtb : List Char → List Char → Bool
  | [], [] => false
  | [], _ :: _ => true
  | _ :: _, [] => false
  | c :: cs, d :: ds => if c.toNat < d.toNat then true
      else if d.toNat < c.toNat then false else charListLtb cs ds

/-- JS `a < b` on strings. -/
def strLtb (a b : String) : Bool := charListLtb a.toList b.toList

/-- Literal-sequence match at the head of a character list. -/
def litMatch : List Char → List Char → Option (List Char)
  | [], cs => some cs
  | _ :: _, [] => none
  | l :: ls, c :: cs => if c = l then litMatch ls cs else none

/-- JS `s.startsWith(p)`. -/
def startsWithStr (s p : String) : Bool := (litMatch p.toList s.toList).isSome

/-- JS `s.endsWith(p)`. -/
def endsWithStr (s p : String) : Bool :=
  (litMatch p.toList.reverse s.toList.reverse).isSome

/-- A left brace character as a string. -/
def lbrace : String := "\x7b"

/-- A right brace character as a string. -/
def rbrace : String := "\x7d"

/-- A single-quote character as a string. -/
def squote : String := String.mk [Char.ofNat 39]

/-- `Array.prototype.join(",")` on already-rendered pieces. -/
def commaJoin (l : List String) : String := String.intercalate "," l

/-- JS `\s` (ASCII fragment: space, tab, LF, CR, VT, FF). -/
def isJsWS (c : Char) : Bool :=
  c = ' ' || c = '\t' || c = '\n' || c = '\r' || c = Char.ofNat 11 || c = Char.ofNat 12

/-- JS `String.prototype.trim` (ASCII whitespace fragment). -/
def jsTrim (s : String) : String :=
  String.mk (((s.toList.dropWhile isJsWS).reverse.dropWhile isJsWS).reverse)

/-- Split a character list at newlines (`split("\n")` keeps empty
pieces, including a trailing one). -/
def splitCharsOnNl : List Char → List (List Char)
  | [] => [[]]
  | '\n' :: rest => [] :: splitCharsOnNl rest
  | c :: rest =>
    match splitCharsOnNl rest with
    | [] => [[c]]
    | l :: ls => (c :: l) :: ls

/-- JS `content.split("\n")`. -/
def splitLines (s : String) : List String := (splitCharsOnNl s.toList).map String.mk

/-- JS `\w` word character. -/
def isWordChar (c : Char) : Bool := c.isAlphanum || c = '_'

/-- Stable insertion of a string into a list sorted by the default JS
string comparator: the new element lands after every element not greater
than it. -/
def insertSorted (x : String) : List String → List String
  | [] => [x]
  | y :: ys => if strLtb x y then x :: y :: ys else y :: insertSorted x ys

/-- JS `Array.prototype.sort()` on strings: stable, default
code-unit-lexicographic comparator (insertion sort is stable, so it
computes the same list as any stable sort). -/
def jsSortStrings (l : List String) : List String :=
  l.foldl (fun acc x => insertSorted x acc) []

/-- JS `s.slice(0, n)` on ASCII content. -/
def jsSlice0 (s : String) (n : Nat) : String := s.take n

/-- `x || default` for an optional JS string (both `undefined` and the
empty string are falsy). -/
def orDefault (v : Option String) (d : String) : String :=
  match v with
  | some s => if s = "" then d else s
  | none => d

/-- Insert into a JS `Set`-like list: keep first occurrence, preserve
insertion order. -/
def insertUniq (l : List String) (x : String) : List String :=
  if x ∈ l then l else l ++ [x]

/-- JS `new Set(list)` iterated in insertion order. -/
def jsSet (l : List String) : List String := l.foldl insertUniq []

end Vybe

namespace Vybe.A5

/-! ### A5 adjudicator types (`types.ts`) -/

/-- `DiffType` from `types.ts`. -/
inductive DiffType where
  | MISSING_FILE
  | EXTRA_FILE
  | CONTENT_DIFF
  | SEMANTIC_DIFF
  | STYLE_DIFF
  | HASH_MISMATCH
deriving DecidableEq

/-- `DiffSeverity` from `types.ts`. -/
inductive DiffSeverity where
  | critical
  | major
  | minor
  | info
deriving DecidableEq

/-- `VerdictType` from `types.ts`. -/
inductive VerdictType where
  | MATCH
  | MISMATCH
  | PARTIAL_MATCH
  | ERROR
  | INCONCLUSIVE
deriving DecidableEq

/-- `GeneratedFile` (shared shape of A3/A4/adjudicator outputs; the
optional `type` category of the generator-side interface is carried
along and ignored by the comparator). -/
structure GeneratedFile where
  path : String
  content : String
  hash : String
  type : Option String := none
deriving DecidableEq

/-- `GenerationMetadata` (union of the generator-side and
adjudicator-side interfaces; `generator` and `fileCount` are optional). -/
structure GenerationMetadata where
  timestamp : String
  version : String
  manifestHash : String
  durationMs : JSNumber
  generator : Option String := none
  fileCount : Option Nat := none
deriving DecidableEq

/-- `CodegenOutput`. -/
structure CodegenOutput where
  files : List GeneratedFile
  metadata : GenerationMetadata
  hash : String
deriving DecidableEq

/-- `ComparisonOptions`. -/
structure ComparisonOptions where
  ignoreWhitespace : Option Bool := none
  ignoreComments : Option Bool := none
  semanticMode : Option String := none
  maxDiffSize : Option Nat := none
deriving DecidableEq

/-- `ComparisonInput` (both bundles present, as the TS types declare). -/
structure ComparisonInput where
  a3Output : CodegenOutput
  a4Output : CodegenOutput
  options : Option ComparisonOptions := none
deriving DecidableEq

/-- `DiffLocation`. -/
structure DiffLocation where
  startLine : Nat
  endLine : Nat
  startColumn : Option Nat := none
  endColumn : Option Nat := none
deriving DecidableEq

/-- `SemanticDiff`. -/
structure SemanticDiff where
  path : String
  type : DiffType
  severity : DiffSeverity
  description : String
  a3Value : Option String := none
  a4Value : Option String := none
  location : Option DiffLocation := none
deriving DecidableEq

/-- `AdjudicationVerdict`. -/
structure AdjudicationVerdict where
  verdict : VerdictType
  confidence : JSNumber
  semanticallyEquivalent : Bool
  diffs : List SemanticDiff
  summary : String
  timestamp : String
deriving DecidableEq

/-- `DiffMismatch` from the diff-builder module. -/
structure DiffMismatch where
  type : DiffType
  severity : DiffSeverity
  path : String
  description : String
  a3Value : Option String := none
  a4Value : Option String := none
deriving DecidableEq

/-- `DiffSummary`. -/
structure DiffSummary where
  filesMatch : Bool
  hashMatch : Bool
  criticalCount : Nat
  majorCount : Nat
  minorCount : Nat
  infoCount : Nat
deriving DecidableEq

/-- `DiffResult`. -/
structure DiffResult where
  timestamp : String
  a3Hash : String
  a4Hash : String
  totalDiffs : Nat
  mismatches : List DiffMismatch
  summary : DiffSummary
deriving DecidableEq

/-! ### `extractExports` (regex scan for exported declaration names) -/

/-- Match `\s+` greedily (the following regex atoms are never
whitespace, so greedy matching needs no backtracking here). -/
def ws1 : List Char → Option (List Char)
  | [] => none
  | c :: cs => if isJsWS c then some (cs.dropWhile isJsWS) else none

/-- Match `(\w+)` greedily, returning the captured word and the rest. -/
def word1 (cs : List Char) : Option (String × List Char) :=
  let w := cs.takeWhile isWordChar
  if w.isEmpty then none else some (String.mk w, cs.dropWhile isWordChar)

/-- Try the regex `export\s+<kw>\s+(\w+)` at the current position. -/
def matchExportKw (kw : String) (cs : List Char) : Option (String × List Char) :=
  match litMatch "export".toList cs with
  | none => none
  | some r1 =>
    match ws1 r1 with
    | none => none
    | some r2 =>
      match litMatch kw.toList r2 with
      | none => none
      | some r3 =>
        match ws1 r3 with
        | none => none
        | some r4 => word1 r4

/-- Global regex scan: leftmost matches, resuming after each match
(`lastIndex` semantics).  `fuel` bounds the recursion; starting it above
the input length makes the scan total without cutting any match. -/
def scanExports (kw : String) : Nat → List Char → List String
  | 0, _ => []
  | _ + 1, [] => []
  | fuel + 1, c :: cs =>
    match matchExportKw kw (c :: cs) with
    | some (name, rest) => name :: scanExports kw fuel rest
    | none => scanExports kw fuel cs

/-- `extractExports`: run the four `export` patterns in order, then
`Array.prototype.sort()` the collected names. -/
def extractExports (content : String) : List String :=
  let cs := content.toList
  let n := content.length + 1
  jsSortStrings
    (scanExports "const" n cs ++ scanExports "function" n cs ++
      scanExports "type" n cs ++ scanExports "interface" n cs)

/-! ### Diff-builder module (`diff.ts`) -/

/-- `compareContent` of the diff-builder module: a minor line-count
mismatch plus a major `CONTENT_DIFF` for each one-sided export name. -/
def compareContent (a3Content a4Content path : String) : List DiffMismatch :=
  let a3Lines := splitLines a3Content
  let a4Lines := splitLines a4Content
  let lineDiff : List DiffMismatch :=
    if a3Lines.length ≠ a4Lines.length then
      [{ type := .CONTENT_DIFF, severity := .minor, path,
         description := "Line count differs",
         a3Value := some (toString a3Lines.length ++ " lines"),
         a4Value := some (toString a4Lines.length ++ " lines") }]
    else []
  let a3Exports := extractExports a3Content
  let a4Exports := extractExports a4Content
  let onlyA3 : List DiffMismatch :=
    (a3Exports.filter (fun e => ¬ a4Exports.contains e)).map (fun e =>
      { type := .CONTENT_DIFF, severity := .major, path,
        description := "Export \"" ++ e ++ "\" exists in A3 but not in A4" })
  let onlyA4 : List DiffMismatch :=
    (a4Exports.filter (fun e => ¬ a3Exports.contains e)).map (fun e =>
      { type := .CONTENT_DIFF, severity := .major, path,
        description := "Export \"" ++ e ++ "\" exists in A4 but not in A3" })
  lineDiff ++ onlyA3 ++ onlyA4

/-- `compareMetadata`. -/
def compareMetadata (a3Meta a4Meta : GenerationMetadata) : List DiffMismatch :=
  (if a3Meta.version ≠ a4Meta.version then
    [{ type := .CONTENT_DIFF, severity := .info, path := "metadata.version",
       description := "Generator versions differ",
       a3Value := some a3Meta.version, a4Value := some a4Meta.version }]
   else []) ++
  (if a3Meta.generator ≠ a4Meta.generator then
    [{ type := .CONTENT_DIFF, severity := .info, path := "metadata.generator",
       description := "Generators differ (expected)",
       a3Value := some (orDefault a3Meta.generator "a3-primary"),
       a4Value := some (orDefault a4Meta.generator "a4-dual") }]
   else []) ++
  (if a3Meta.manifestHash ≠ a4Meta.manifestHash then
    [{ type := .HASH_MISMATCH, severity := .major, path := "metadata.manifestHash",
       description := "Manifest hashes differ - inputs may be different",
       a3Value := some a3Meta.manifestHash, a4Value := some a4Meta.manifestHash }]
   else []) ++ []

/-- `buildDiff` (`now` stands for `new Date().toISOString()`). -/
def buildDiff (now : String) (a3Output a4Output : CodegenOutput) : DiffResult :=
  let a3Paths := jsSet (a3Output.files.map (·.path))
  let a4Paths := jsSet (a4Output.files.map (·.path))
  let missing : List DiffMismatch :=
    (a3Paths.filter (fun p => ¬ p ∈ a4Paths)).map (fun p =>
      { type := .MISSING_FILE, severity := .critical, path := p,
        description := "File exists in A3 but missing in A4",
        a3Value := some "present", a4Value := some "missing" })
  let extra : List DiffMismatch :=
    (a4Paths.filter (fun p => ¬ p ∈ a3Paths)).map (fun p =>
      { type := .EXTRA_FILE, severity := .critical, path := p,
        description := "File exists in A4 but missing in A3",
        a3Value := some "missing", a4Value := some "present" })
  let fileDiffs : List DiffMismatch :=
    a3Output.files.flatMap (fun a3File =>
      match a4Output.files.find? (fun f => f.path = a3File.path) with
      | none => []
      | some a4File =>
        if a3File.hash ≠ a4File.hash then
          { type := .HASH_MISMATCH, severity := .major, path := a3File.path,
            description := "File hashes differ",
            a3Value := some a3File.hash, a4Value := some a4File.hash }
            :: compareContent a3File.content a4File.content a3File.path
        else [])
  let mismatches := missing ++ extra ++ fileDiffs ++
    compareMetadata a3Output.metadata a4Output.metadata
  { timestamp := now,
    a3Hash := a3Output.hash,
    a4Hash := a4Output.hash,
    totalDiffs := mismatches.length,
    mismatches,
    summary :=
      { filesMatch := a3Paths.all (fun p => a4Paths.contains p) &&
          a4Paths.all (fun p => a3Paths.contains p),
        hashMatch := a3Output.hash = a4Output.hash,
        criticalCount := (mismatches.filter (fun m => m.severity = .critical)).length,
        majorCount := (mismatches.filter (fun m => m.severity = .major)).length,
        minorCount := (mismatches.filter (fun m => m.severity = .minor)).length,
        infoCount := (mismatches.filter (fun m => m.severity = .info)).length } }

/-- The JSON-serializable diff report of `generateDiffReport` (constant
header fields, the spread result, and the derived verdict). -/
structure DiffReport where
  version : String
  generator : String
  result : DiffResult
  verdict : VerdictType
deriving DecidableEq

/-- `generateDiffReport`: verdict is a pure function of the summary. -/
def generateDiffReport (result : DiffResult) : DiffReport :=
  { version := "1.0.0",
    generator := "a5-adjudicator",
    result,
    verdict :=
      if result.summary.criticalCount = 0 ∧ result.summary.majorCount = 0 then
        .MATCH
      else if result.summary.criticalCount > 0 then .MISMATCH
      else .PARTIAL_MATCH }

/-! ### Adjudicator core module (`compare.ts`) -/

/-- Global replace of `/\r\n/g` by `"\n"`. -/
def replaceCRLFAux : List Char → List Char
  | [] => []
  | '\r' :: '\n' :: rest => '\n' :: replaceCRLFAux rest
  | c :: rest => c :: replaceCRLFAux rest

/-- Global replace of `/\r\n/g` by `"\n"`. -/
def replaceCRLF (s : String) : String := String.mk (replaceCRLFAux s.toList)

/-- Collapse a run of spaces/tabs (`/[ \t]+/g → " "`). -/
def collapseSpaceTabAux : Nat → List Char → List Char
  | 0, _ => []
  | _ + 1, [] => []
  | fuel + 1, c :: cs =>
    if c = ' ' || c = '\t' then
      ' ' :: collapseSpaceTabAux fuel (cs.dropWhile (fun d => d = ' ' || d = '\t'))
    else c :: collapseSpaceTabAux fuel cs

/-- `/[ \t]+/g → " "`. -/
def collapseSpaceTab (s : String) : String :=
  String.mk (collapseSpaceTabAux (s.length + 1) s.toList)

/-- One step of the global `/\n\s*\n/g → "\n"` replacement: at a `\n`,
the greedy `\s*` backtracks to the last `\n` inside the maximal
whitespace run that follows, and the whole match is replaced by a single
newline; scanning resumes after the match. -/
def lastNlSplit (run : List Char) : Option (Nat × Nat) :=
  let idx := (run.enum.filter (fun p => p.2 = '\n')).map (·.1)
  match idx.getLast? with
  | some i => some (i, run.length)
  | none => none

/-- `/\n\s*\n/g → "\n"`. -/
def collapseBlankAux : Nat → List Char → List Char
  | 0, _ => []
  | _ + 1, [] => []
  | fuel + 1, c :: cs =>
    if c = '\n' then
      let run := cs.takeWhile (fun d => isJsWS d)
      match lastNlSplit run with
      | some (i, _) => '\n' :: collapseBlankAux fuel (cs.drop (i + 1))
      | none => c :: collapseBlankAux fuel cs
    else c :: collapseBlankAux fuel cs

/-- `/\n\s*\n/g → "\n"`. -/
def collapseBlank (s : String) : String :=
  String.mk (collapseBlankAux (s.length + 1) s.toList)

/-- `normalizeWhitespace`. -/
def normalizeWhitespace (content : String) : String :=
  jsTrim (collapseBlank (collapseSpaceTab (replaceCRLF content)))

/-- `/\/\/.*$/gm → ""` on one line (the line is the text between two
`\n`; `.` matches neither `\n` nor `\r`, so a match can only start at a
`//` that lies after the last `\r` of the line). -/
def stripLineComment (line : String) : String :=
  let cs := line.toList
  let lastCR := ((cs.enum.filter (fun p => p.2 = '\r')).map (·.1)).getLast?
  let from_ := match lastCR with | some i => i + 1 | none => 0
  let rec findSlashes (i : Nat) (l : List Char) : Option Nat :=
    match l with
    | '/' :: '/' :: _ => some i
    | _ :: rest => findSlashes (i + 1) rest
    | [] => none
  match findSlashes 0 cs with
  | some j => if j ≥ from_ then String.mk (cs.take j) else
      -- the first `//` is before a `\r`: the regex retries at later `//`s
      match findSlashes 0 (cs.drop from_) with
      | some k => String.mk (cs.take (from_ + k))
      | none => line
  | none => line

/-- `content.replace(/\/\/.*$/gm, "")`. -/
def removeLineComments (content : String) : String :=
  String.intercalate "\n" ((splitLines content).map stripLineComment)

/-- `content.replace(/\/\*[\s\S]*?\*\//g, "")`: lazy block-comment
removal; an unterminated `/*` is left in place. -/
def removeBlockCommentsAux : Nat → List Char → List Char
  | 0, _ => []
  | _ + 1, [] => []
  | fuel + 1, c :: cs =>
    match c, cs with
    | '/', '*' :: rest =>
      let rec findClose (l : List Char) (k : Nat) : Option Nat :=
        match l with
        | '*' :: '/' :: _ => some k
        | _ :: tl => findClose tl (k + 1)
        | [] => none
      match findClose rest 0 with
      | some k => removeBlockCommentsAux fuel (rest.drop (k + 2))
      | none => c :: removeBlockCommentsAux fuel cs
    | _, _ => c :: removeBlockCommentsAux fuel cs

/-- `removeComments`. -/
def removeComments (content : String) : String :=
  let noLine := removeLineComments content
  String.mk (removeBlockCommentsAux (noLine.length + 1) noLine.toList)

/-- `options?.ignoreWhitespace` style truthy test on an optional flag. -/
def optFlag (o : Option ComparisonOptions) (f : ComparisonOptions → Option Bool) : Bool :=
  match o with
  | some opts => (f opts).getD false
  | none => false

/-- `compareContent` of the core module: normalize as requested, then a
single major `CONTENT_DIFF` when the normalized contents still differ. -/
def compareContentSem (a3Content a4Content path : String)
    (options : Option ComparisonOptions) : List SemanticDiff :=
  let c1 := if optFlag options (·.ignoreWhitespace) then normalizeWhitespace a3Content else a3Content
  let c2 := if optFlag options (·.ignoreWhitespace) then normalizeWhitespace a4Content else a4Content
  let c1 := if optFlag options (·.ignoreComments) then removeComments c1 else c1
  let c2 := if optFlag options (·.ignoreComments) then removeComments c2 else c2
  if c1 ≠ c2 then
    [{ path, type := .CONTENT_DIFF, severity := .major,
       description := "File content differs between A3 and A4",
       a3Value := some (jsSlice0 c1 100 ++ if c1.length > 100 then "..." else ""),
       a4Value := some (jsSlice0 c2 100 ++ if c2.length > 100 then "..." else "") }]
  else []

/-- `compare`. -/
def compare (input : ComparisonInput) : List SemanticDiff :=
  let a3Paths := jsSet (input.a3Output.files.map (·.path))
  let a4Paths := jsSet (input.a4Output.files.map (·.path))
  let missing : List SemanticDiff :=
    (a3Paths.filter (fun p => ¬ p ∈ a4Paths)).map (fun p =>
      { path := p, type := .MISSING_FILE, severity := .critical,
        description := "File exists in A3 but missing in A4",
        a3Value := some "present", a4Value := some "missing" })
  let extra : List SemanticDiff :=
    (a4Paths.filter (fun p => ¬ p ∈ a3Paths)).map (fun p =>
      { path := p, type := .EXTRA_FILE, severity := .critical,
        description := "File exists in A4 but missing in A3",
        a3Value := some "missing", a4Value := some "present" })
  let contentDiffs : List SemanticDiff :=
    input.a3Output.files.flatMap (fun a3File =>
      match input.a4Output.files.find? (fun f => f.path = a3File.path) with
      | none => []
      | some a4File =>
        if a3File.hash ≠ a4File.hash then
          compareContentSem a3File.content a4File.content a3File.path input.options
        else [])
  missing ++ extra ++ contentDiffs

/-- `generateSummary`. -/
def generateSummary (verdict : VerdictType) (diffs : List SemanticDiff) : String :=
  match verdict with
  | .MATCH =>
    if diffs.length = 0 then "A3 and A4 outputs are identical."
    else "A3 and A4 outputs are semantically equivalent (" ++
      toString diffs.length ++ " minor differences)."
  | .MISMATCH =>
    "A3 and A4 outputs differ significantly. " ++ toString diffs.length ++
      " differences found."
  | .PARTIAL_MATCH =>
    "A3 and A4 outputs partially match. " ++ toString diffs.length ++
      " differences require review."
  | .ERROR => "Comparison could not be completed due to an error."
  | .INCONCLUSIVE => "Could not determine semantic equivalence."

/-- `adjudicate` (`now` stands for `new Date().toISOString()`). -/
def adjudicate (now : String) (input : ComparisonInput) : AdjudicationVerdict :=
  let diffs := compare input
  let criticalDiffs := diffs.filter (fun d => d.severity = .critical)
  let majorDiffs := diffs.filter (fun d => d.severity = .major)
  let vcs : VerdictType × JSNumber × Bool :=
    if diffs.length = 0 then (.MATCH, ⟨1, 1⟩, true)
    else if criticalDiffs.length > 0 then (.MISMATCH, ⟨95, 100⟩, false)
    else if majorDiffs.length > 0 then (.PARTIAL_MATCH, ⟨8, 10⟩, false)
    else (.MATCH, ⟨9, 10⟩, true)
  { verdict := vcs.1,
    confidence := vcs.2.1,
    semanticallyEquivalent := vcs.2.2,
    diffs,
    summary := generateSummary vcs.1 diffs,
    timestamp := now }

/-! ### JS-runtime view of the comparison entry points

The TS types require both bundles; at run time a missing (`undefined`)
bundle makes `compare` dereference `undefined.files` and throw a
`TypeError`, which `adjudicate` does not catch.  `Except.error` models
the propagated throw. -/

/-- `ComparisonInput` as it can actually arrive at run time: either
bundle may be `undefined`. -/
structure ComparisonInputJS where
  a3Output : Option CodegenOutput
  a4Output : Option CodegenOutput
  options : Option ComparisonOptions := none

/-- `compare` at the JS runtime level: a missing bundle throws
(`a3Output.files` is read first, then `a4Output.files`). -/
def compareJS (input : ComparisonInputJS) : Except String (List SemanticDiff) :=
  match input.a3Output with
  | none => .error "TypeError"
  | some a3 =>
    match input.a4Output with
    | none => .error "TypeError"
    | some a4 => .ok (compare { a3Output := a3, a4Output := a4, options := input.options })

/-- `adjudicate` at the JS runtime level: the `TypeError` thrown by
`compare` propagates; there is no catch and no `ERROR`-verdict path. -/
def adjudicateJS (now : String) (input : ComparisonInputJS) :
    Except String AdjudicationVerdict :=
  match compareJS input with
  | .error e => .error e
  | .ok _ =>
    match input.a3Output, input.a4Output with
    | some a3, some a4 =>
      .ok (adjudicate now { a3Output := a3, a4Output := a4, options := input.options })
    | _, _ => .error "TypeError"

end Vybe.A5

namespace Vybe.A4

open Vybe.A5 (GeneratedFile GenerationMetadata CodegenOutput)

/-! ### A4 dual generator (`codegen.ts`): bundle assembly and hashing

`generateHash` is SHA-256 truncated to 16 hex characters; it is
abstracted as `sha`.  The manifest reader `parseManifestRegex` and the
five file builders are pure functions of the manifest text / manifest /
already-built files (their source signatures take no clock input), so
`generate` is stated parametrically in them; the wall-clock reads of
`generate` itself (`new Date().toISOString()` and the `Date.now()`
difference) are the explicit `timestamp` / `durationMs` parameters. -/

/-- `generateHash` (abstract SHA-256, hex, truncated). -/
def generateHash (sha : String → String) (content : String) : String := sha content

/-- A JSON string literal for the tame (hash/path) strings that reach
`JSON.stringify` here; quote, backslash and ASCII control characters are
escaped. -/
def jsonEscapeChar (c : Char) : String :=
  if c = '"' then "\\\""
  else if c = '\\' then "\\\\"
  else if c = '\n' then "\\n"
  else if c = '\r' then "\\r"
  else if c = '\t' then "\\t"
  else if c.toNat < 32 then
    "\\u00" ++ String.mk [Nat.digitChar (c.toNat / 16), Nat.digitChar (c.toNat % 16)]
  else String.mk [c]

/-- JSON string literal. -/
def jsonStr (s : String) : String :=
  "\"" ++ String.join (s.toList.map jsonEscapeChar) ++ "\""

/-- `JSON.stringify` of one `{path, hash}` record (insertion key order,
no spacing). -/
def pairJson (p : String × String) : String :=
  lbrace ++ "\"path\":" ++ jsonStr p.1 ++ ",\"hash\":" ++ jsonStr p.2 ++ rbrace

/-- The serialized form hashed by `generateOutputHash`:
`JSON.stringify({files: files.map(f => ({path, hash})), manifestHash})`. -/
def outputHashJson (pairs : List (String × String)) (manifestHash : String) : String :=
  lbrace ++ "\"files\":[" ++ commaJoin (pairs.map pairJson) ++ "],\"manifestHash\":" ++
    jsonStr manifestHash ++ rbrace

/-- `generateOutputHash`: hash of the `(path, hash)` pairs plus the
manifest hash; no other part of the output is read. -/
def generateOutputHash (sha : String → String) (output : CodegenOutput) : String :=
  generateHash sha
    (outputHashJson (output.files.map (fun f => (f.path, f.hash)))
      output.metadata.manifestHash)

/-- `generate`, parametric in the pure subcomponents (manifest reader,
`JSON.stringify` of the manifest, and the five AST-based file builders)
and explicit in the two clock reads. -/
def generate {M : Type} (parseManifestRegex : String → M)
    (stringifyManifest : M → String)
    (buildTypesFile buildConstantsFile buildValidatorsFile buildConfigFile :
      M → GeneratedFile)
    (buildIndexFile : List GeneratedFile → GeneratedFile)
    (sha : String → String) (timestamp : String) (durationMs : JSNumber)
    (content : String) : CodegenOutput :=
  let manifest := parseManifestRegex content
  let manifestHash := generateHash sha (stringifyManifest manifest)
  let files4 : List GeneratedFile :=
    [buildTypesFile manifest, buildConstantsFile manifest,
     buildValidatorsFile manifest, buildConfigFile manifest]
  let files := files4 ++ [buildIndexFile files4]
  let metadata : GenerationMetadata :=
    { timestamp, version := "1.0.0", manifestHash, durationMs,
      generator := some "a4-dual-ast", fileCount := some files.length }
  let outHash := generateOutputHash sha { files, metadata, hash := "" }
  { files, metadata, hash := outHash }

end Vybe.A4

namespace Vybe.ML

/-! ### Shared manifest loader (`manifest-loader.ts`)

The parser builds an untyped JS value (`JValue`); `normalizeManifest`
turns it into the typed `Manifest` with hard-coded defaults.  Fields on
which the source performs untyped (`any`) operations keep the `JValue`
type, and the JS coercion semantics of `||`, `??`, `+`, `<`, `>=` are
embedded explicitly. -/

/-- An untyped JS value as the YAML-subset parser produces it (`null`
and `undefined` never appear inside a parsed document; absence is
`Option` at the use sites). -/
inductive JValue where
  | s (v : String)
  | n (v : JSNumber)
  | b (v : Bool)
  | arr (items : List JValue)
  | obj (fields : List (String × JValue))

/-- An ordered JS object (property insertion order). -/
abbrev JObj := List (String × JValue)

/-- Property read: first binding wins (keys are unique by
construction). -/
def jlookup {α : Type} (k : String) : List (String × α) → Option α
  | [] => none
  | (k', v) :: rest => if k' = k then some v else jlookup k rest

/-- JS property write: overwrite in place, else append (insertion
order preserved). -/
def jset (k : String) (v : JValue) : JObj → JObj
  | [] => [(k, v)]
  | (k', v') :: rest => if k' = k then (k', v) :: rest else (k', v') :: jset k v rest

/-- Read along a key path (property access on a non-object yields
`undefined`). -/
def jgetIn (raw : JObj) : List String → Option JValue
  | [] => none
  | [k] => jlookup k raw
  | k :: ks =>
    match jlookup k raw with
    | some (.obj fs) => jgetIn fs ks
    | _ => none

/-- Write along a key path.  A write through a non-object parent is a
no-op here; in the source that state is unreachable for the documents
the claims concern (a strict-mode write to a primitive's property would
throw). -/
def jsetIn (raw : JObj) : List String → JValue → JObj
  | [], _ => raw
  | [k], v => jset k v raw
  | k :: ks, v =>
    match jlookup k raw with
    | some (.obj fs) => jset k (.obj (jsetIn fs ks v)) raw
    | _ => raw

/-- `currentList.push(x)` through the alias into `result`, modelled by
the list's path: append when the path still holds an array, otherwise do
nothing (when the source's alias is detached, its pushes are invisible
in `result`, and the slot a stale path reaches is never an array —
see `parseLine`'s third-level object replacement). -/
def jpushIn (raw : JObj) : List String → JValue → JObj
  | [], _ => raw
  | [k], v =>
    match jlookup k raw with
    | some (.arr xs) => jset k (.arr (xs ++ [v])) raw
    | _ => raw
  | k :: ks, v =>
    match jlookup k raw with
    | some (.obj fs) => jset k (.obj (jpushIn fs ks v)) raw
    | _ => raw

/-! #### `parseValue` -/

/-- The anchored regex `^-?\d*\.?\d+$` on the part after the optional
sign: digits and at most one dot, ending in a digit. -/
def decTail (cs : List Char) : Bool :=
  !cs.isEmpty && cs.all (fun c => c.isDigit || c = '.') &&
    (cs.filter (fun c => c = '.')).length ≤ 1 &&
    (match cs.getLast? with | some c => c.isDigit | none => false)

/-- `cleanValue.match(/^-?\d*\.?\d+$/)`. -/
def decimalMatch (s : String) : Bool :=
  match s.toList with
  | '-' :: rest => decTail rest
  | cs => decTail cs

/-- Digits to a natural number. -/
def digitsToNat (cs : List Char) : Nat :=
  cs.foldl (fun a c => a * 10 + (c.toNat - 48)) 0

/-- Exact value of a decimal literal (optionally signed, digits with at
most one dot).  JS `parseFloat` yields the nearest double; the exact
rational orders identically on the short decimals this pipeline uses. -/
def parseDecimal (s : String) : JSNumber :=
  let (neg, cs) :=
    match s.toList with
    | '-' :: rest => (true, rest)
    | cs => (false, cs)
  let intPart := cs.takeWhile (fun c => c.isDigit)
  let rest := cs.drop intPart.length
  let frac := match rest with | '.' :: f => f | _ => []
  let k := frac.length
  let n : Nat := digitsToNat intPart * 10 ^ k + digitsToNat frac
  ⟨if neg then -(n : Int) else (n : Int), 10 ^ k⟩

/-- `parseValue`: strip an inline comment (only when `#` is not the
first character), strip surrounding quotes, then coerce booleans and
decimal-looking tokens. -/
def parseValue (value : String) : JValue :=
  let cleanValue :=
    match value.toList.findIdx? (fun c => c = '#') with
    | some i => if i > 0 then jsTrim (String.mk (value.toList.take i)) else value
    | none => value
  if (startsWithStr cleanValue "\"" && endsWithStr cleanValue "\"") ||
      (startsWithStr cleanValue squote && endsWithStr cleanValue squote) then
    .s ((cleanValue.drop 1).dropRight 1)
  else if cleanValue = "true" then .b true
  else if cleanValue = "false" then .b false
  else if decimalMatch cleanValue then .n (parseDecimal cleanValue)
  else .s cleanValue

/-! #### `parseYaml` line machine -/

/-- Parser state.  The source's `currentList` array alias is represented
by its path into `result` (`listPath`), alongside `currentListKey`
exactly as in the source. -/
structure PState where
  result : JObj := []
  currentSection : Option String := none
  currentSubSection : Option String := none
  currentListKey : Option String := none
  listPath : Option (List String) := none

/-- `trimmed.includes(":")`. -/
def containsColon (s : String) : Bool := s.toList.contains ':'

/-- `trimmed.indexOf(":")` (only used when a colon is present). -/
def colonIdx (s : String) : Nat :=
  (s.toList.findIdx? (fun c => c = ':')).getD 0

/-- `line.search(/\S/)` (only used on lines with a non-space char). -/
def searchNonWS (line : String) : Nat :=
  (line.toList.findIdx? (fun c => !isJsWS c)).getD 0

/-- One iteration of the `for (const line of lines)` loop of
`parseYaml`. -/
def parseLine (st : PState) (line : String) : PState :=
  let trimmed := jsTrim line
  if startsWithStr trimmed "#" || trimmed = "" then st
  else if !startsWithStr line " " && !startsWithStr line "\t" && containsColon trimmed then
    -- top-level key
    let ci := colonIdx trimmed
    let key := jsTrim (trimmed.take ci)
    let value := jsTrim (trimmed.drop (ci + 1))
    if value ≠ "" then
      { st with result := jset key (parseValue value) st.result,
                listPath := none, currentListKey := none }
    else
      { st with result := jset key (.obj []) st.result,
                currentSection := some key, currentSubSection := none,
                listPath := none, currentListKey := none }
  else
    match st.currentSection with
    | none => st
    | some s =>
      -- `currentSection && (line.startsWith("  ") || line.startsWith("\t"))`
      if s ≠ "" && (startsWithStr line "  " || startsWithStr line "\t") then
        let indent := searchNonWS line
        if startsWithStr trimmed "- " then
          -- list item
          match st.currentListKey, st.listPath with
          | some k, some p =>
            if k ≠ "" then
              { st with result := jpushIn st.result p (parseValue (jsTrim (trimmed.drop 2))) }
            else st
          | _, _ => st
        else if containsColon trimmed then
          let ci := colonIdx trimmed
          let key := jsTrim (trimmed.take ci)
          let value := jsTrim (trimmed.drop (ci + 1))
          if indent ≤ 2 then
            -- second-level key
            if value ≠ "" then
              { st with currentSubSection := some key,
                        result := jsetIn st.result [s, key] (parseValue value),
                        listPath := none, currentListKey := none }
            else
              { st with currentSubSection := some key,
                        result := jsetIn st.result [s, key] (.arr []),
                        listPath := some [s, key], currentListKey := some key }
          else
            -- third-level key (`currentSubSection && indent > 2`)
            match st.currentSubSection with
            | some sub =>
              if sub ≠ "" then
                let fixed :=
                  match jgetIn st.result [s, sub] with
                  | some (.obj _) => st.result
                  | _ => jsetIn st.result [s, sub] (.obj [])
                if value ≠ "" then
                  { st with result := jsetIn fixed [s, sub, key] (parseValue value) }
                else
                  { st with result := jsetIn fixed [s, sub, key] (.arr []),
                            listPath := some [s, sub, key], currentListKey := some key }
              else st
            | none => st
        else st
      else st

/-- The raw object built by `parseYaml` before normalization. -/
def parseRawYaml (content : String) : JObj :=
  ((splitLines content).foldl parseLine {}).result

/-! #### `normalizeManifest` -/

/-- JS truthiness of a parsed value. -/
def jsTruthy : JValue → Bool
  | .s v => v ≠ ""
  | .n q => !q.isZero
  | .b bv => bv
  | .arr _ => true
  | .obj _ => true

/-- `x || default` (also covering an absent property). -/
def jsOr (v : Option JValue) (d : JValue) : JValue :=
  match v with
  | some w => if jsTruthy w then w else d
  | none => d

/-- Optional-chained property read `x?.k` (a property of a primitive or
array is `undefined` for the keys this loader reads). -/
def jgetP (v : Option JValue) (k : String) : Option JValue :=
  match v with
  | some (.obj fs) => jlookup k fs
  | _ => none

/-- `Array.isArray(x) ? x : default`. -/
def asArr (v : Option JValue) (d : List JValue) : List JValue :=
  match v with
  | some (.arr xs) => xs
  | _ => d

/-- Normalized metric entry. -/
structure MetricN where
  description : JValue
  weight : JValue
  sources : List JValue

/-- `Object.entries` on a parsed value. -/
def jsEntries : JValue → List (String × JValue)
  | .obj fs => fs
  | .arr xs => xs.enum.map (fun p => (toString p.1, p.2))
  | .s str => str.toList.enum.map (fun p => (toString p.1, .s (String.mk [p.2])))
  | _ => []

/-- One entry of `normalizeMetrics`: kept only when the value is
object-typed (`typeof value === "object"`, which arrays also satisfy). -/
def normMetricEntry (kv : String × JValue) : Option (String × MetricN) :=
  match kv.2 with
  | .obj _ | .arr _ =>
    some (kv.1,
      { description := jsOr (jgetP (some kv.2) "description") (.s ""),
        weight := jsOr (jgetP (some kv.2) "weight") (.n ⟨0, 1⟩),
        sources := asArr (jgetP (some kv.2) "sources") [] })
  | _ => none

/-- `normalizeMetrics`. -/
def normalizeMetrics (v : JValue) : List (String × MetricN) :=
  (jsEntries v).filterMap normMetricEntry

/-- Normalized `project`. -/
structure ProjectN where
  name : JValue
  description : JValue
  repository : JValue

/-- Normalized `thresholds`. -/
structure ThresholdsN where
  critical : JValue
  low : JValue
  nominal : JValue
  optimal : JValue

/-- Normalized `weights`. -/
structure WeightsN where
  A3_governance : JValue
  A4_architecture : JValue
  A5_implementation : JValue
  validation : JValue

/-- Normalized `diamond_hands`. -/
structure DiamondHandsN where
  threshold : JValue
  required_validation_score : JValue
  approval_required : JValue
  approvers : List JValue

/-- Normalized `thunder_strike`. -/
structure ThunderStrikeN where
  validation_levels : List JValue
  required_for_advancement : List JValue

/-- Normalized `evidence`. -/
structure EvidenceN where
  output_directory : JValue
  formats : List JValue
  retention_days : JValue
  required_artifacts : List JValue

/-- Normalized `ci`. -/
structure CIN where
  trigger_on : List JValue
  schedule : JValue
  jobs : JValue

/-- The normalized `Manifest` (fields the source treats as `any` stay
`JValue`; `notifications`/`roles` are passed through unvalidated and may
be `undefined`). -/
structure Manifest where
  version : JValue
  project : ProjectN
  thresholds : ThresholdsN
  weights : WeightsN
  diamond_hands : DiamondHandsN
  thunder_strike : ThunderStrikeN
  metrics : List (String × MetricN)
  evidence : EvidenceN
  ci : CIN
  notifications : Option JValue
  roles : Option JValue

/-- `normalizeManifest`. -/
def normalizeManifest (raw : JObj) : Manifest :=
  let proj := jlookup "project" raw
  let th := jlookup "thresholds" raw
  let w := jlookup "weights" raw
  let dh := jlookup "diamond_hands" raw
  let ts := jlookup "thunder_strike" raw
  let ev := jlookup "evidence" raw
  let ciq := jlookup "ci" raw
  { version := jsOr (jlookup "version" raw) (.s "2.0.0"),
    project :=
      { name := jsOr (jgetP proj "name") (.s "Unknown"),
        description := jsOr (jgetP proj "description") (.s ""),
        repository := jsOr (jgetP proj "repository") (.s "") },
    thresholds :=
      { critical := jsOr (jgetP th "critical") (.n ⟨3, 10⟩),
        low := jsOr (jgetP th "low") (.n ⟨5, 10⟩),
        nominal := jsOr (jgetP th "nominal") (.n ⟨7, 10⟩),
        optimal := jsOr (jgetP th "optimal") (.n ⟨9, 10⟩) },
    weights :=
      { A3_governance := jsOr (jgetP w "A3_governance") (.n ⟨3, 10⟩),
        A4_architecture := jsOr (jgetP w "A4_architecture") (.n ⟨25, 100⟩),
        A5_implementation := jsOr (jgetP w "A5_implementation") (.n ⟨25, 100⟩),
        validation := jsOr (jgetP w "validation") (.n ⟨2, 10⟩) },
    diamond_hands :=
      { threshold := jsOr (jgetP dh "threshold") (.n ⟨7, 10⟩),
        required_validation_score := jsOr (jgetP dh "required_validation_score") (.n ⟨8, 10⟩),
        approval_required := (jgetP dh "approval_required").getD (.b true),
        approvers := asArr (jgetP dh "approvers") [] },
    thunder_strike :=
      { validation_levels := asArr (jgetP ts "validation_levels")
          [.s "self_assessment", .s "peer_review", .s "external_validation",
           .s "diamond_hands_final"],
        required_for_advancement := asArr (jgetP ts "required_for_advancement")
          [.s "self_assessment", .s "peer_review", .s "external_validation"] },
    metrics := normalizeMetrics (jsOr (jlookup "metrics" raw) (.obj [])),
    evidence :=
      { output_directory := jsOr (jgetP ev "output_directory") (.s "evidence/A7-bundle"),
        formats := asArr (jgetP ev "formats") [.s "json", .s "yaml", .s "markdown"],
        retention_days := jsOr (jgetP ev "retention_days") (.n ⟨90, 1⟩),
        required_artifacts := asArr (jgetP ev "required_artifacts")
          [.s "frequency_report", .s "validation_logs", .s "component_metrics",
           .s "decision_record"] },
    ci :=
      { trigger_on := asArr (jgetP ciq "trigger_on") [.s "push", .s "pull_request"],
        schedule := jsOr (jgetP ciq "schedule") (.s "0 */6 * * *"),
        jobs := jsOr (jgetP ciq "jobs") (.obj []) },
    notifications := jlookup "notifications" raw,
    roles := jlookup "roles" raw }

/-- `parseYaml` (parse and normalize). -/
def parseYaml (content : String) : Manifest :=
  normalizeManifest (parseRawYaml content)

/-! #### JS number coercions used by `validateManifest` -/

/-- A JS number: a finite value (modelled exactly) or `NaN`. -/
inductive JNum where
  | nan
  | val (q : JSNumber)
deriving DecidableEq

/-- JS `ToString` on a parsed value (arrays join with commas, plain
objects print `[object Object]`). -/
def jsToString : JValue → String
  | .s v => v
  | .n q => q.toStr
  | .b true => "true"
  | .b false => "false"
  | .arr xs => String.intercalate "," (serList xs)
  | .obj _ => "[object Object]"
where
  serList : List JValue → List String
    | [] => []
    | x :: xs => jsToString x :: serList xs

/-- A JS numeric string literal (decimal subset: optionally signed,
digits with at most one dot, at least one digit; the exotic `Number`
literal forms — hex, exponent, `Infinity` — never occur in this pipeline
and are mapped to `NaN`). -/
def numLiteral (cs : List Char) : Option JSNumber :=
  let (neg, rest) :=
    match cs with
    | '-' :: r => (true, r)
    | '+' :: r => (false, r)
    | r => (false, r)
  if !rest.isEmpty && rest.all (fun c => c.isDigit || c = '.') &&
      (rest.filter (fun c => c = '.')).length ≤ 1 && rest.any (fun c => c.isDigit) then
    let intPart := rest.takeWhile (fun c => c.isDigit)
    let frac := match rest.drop intPart.length with | '.' :: f => f | _ => []
    let k := frac.length
    let n : Nat := digitsToNat intPart * 10 ^ k + digitsToNat frac
    some ⟨if neg then -(n : Int) else (n : Int), 10 ^ k⟩
  else none

/-- JS `ToNumber` on a string. -/
def numFromString (t : String) : JNum :=
  let t' := jsTrim t
  if t' = "" then .val ⟨0, 1⟩
  else
    match numLiteral t'.toList with
    | some q => .val q
    | none => .nan

/-- A JS primitive after `ToPrimitive`. -/
inductive JPrim where
  | str (s : String)
  | num (q : JSNumber)
  | boolean (b : Bool)
deriving DecidableEq

/-- `ToPrimitive` (arrays and objects go through `toString`). -/
def toPrim : JValue → JPrim
  | .s t => .str t
  | .n q => .num q
  | .b bv => .boolean bv
  | .arr xs => .str (jsToString (.arr xs))
  | .obj fs => .str (jsToString (.obj fs))

/-- `ToNumber` of a primitive. -/
def primToNumber : JPrim → JNum
  | .str t => numFromString t
  | .num q => .val q
  | .boolean bv => .val (if bv then ⟨1, 1⟩ else ⟨0, 1⟩)

/-- JS `a < b` (abstract relational comparison; `NaN` compares false). -/
def jsLT (a b : JValue) : Bool :=
  match toPrim a, toPrim b with
  | .str x, .str y => strLtb x y
  | pa, pb =>
    match primToNumber pa, primToNumber pb with
    | .val x, .val y => x.ltb y
    | _, _ => false

/-- JS `a > b`. -/
def jsGT (a b : JValue) : Bool :=
  match toPrim a, toPrim b with
  | .str x, .str y => strLtb y x
  | pa, pb =>
    match primToNumber pa, primToNumber pb with
    | .val x, .val y => y.ltb x
    | _, _ => false

/-- JS `a >= b` (`!(a < b)`, except `NaN` makes it false). -/
def jsGE (a b : JValue) : Bool :=
  match toPrim a, toPrim b with
  | .str x, .str y => !strLtb x y
  | pa, pb =>
    match primToNumber pa, primToNumber pb with
    | .val x, .val y => y.leb x
    | _, _ => false

/-- Result of a JS `+` chain: a string or a number. -/
inductive JSum where
  | str (s : String)
  | num (n : JNum)
deriving DecidableEq

/-- `String(n)` with `NaN`. -/
def jnumToString : JNum → String
  | .nan => "NaN"
  | .val q => q.toStr

/-- Primitive view of one `+` operand. -/
def jprimOf (v : JValue) : JSum :=
  match toPrim v with
  | .str x => .str x
  | .num q => .num (.val q)
  | .boolean bv => .num (.val (if bv then ⟨1, 1⟩ else ⟨0, 1⟩))

/-- `String(x)` of a `+` result. -/
def jsumToString : JSum → String
  | .str s => s
  | .num n => jnumToString n

/-- Numeric addition with `NaN` propagation. -/
def jnumAdd : JNum → JNum → JNum
  | .val a, .val b => .val (a.add b)
  | _, _ => .nan

/-- JS `a + b` on an accumulated left operand. -/
def jsAddS (a : JSum) (b : JValue) : JSum :=
  match a, jprimOf b with
  | .str x, .str y => .str (x ++ y)
  | .str x, .num m => .str (x ++ jnumToString m)
  | .num m, .str y => .str (jnumToString m ++ y)
  | .num m, .num m' => .num (jnumAdd m m')

/-- `ToNumber` of a `+` result. -/
def jsumToNumber : JSum → JNum
  | .str t => numFromString t
  | .num n => n

/-! #### `validateManifest` and `loadManifest` -/

/-- `ValidationError`. -/
structure ValidationError where
  path : String
  message : String
  code : String
deriving DecidableEq

/-- `ValidationWarning`. -/
structure ValidationWarning where
  path : String
  message : String
  code : String
deriving DecidableEq

/-- `ValidationResult`. -/
structure ValidationResult where
  valid : Bool
  errors : List ValidationError
  warnings : List ValidationWarning
deriving DecidableEq

/-- `validateManifest`. -/
def validateManifest (manifest : Manifest) : ValidationResult :=
  let errors : List ValidationError :=
    (if !jsTruthy manifest.version then
      [{ path := "version", message := "Version is required", code := "MISSING_VERSION" }]
     else []) ++
    (if !jsTruthy manifest.project.name then
      [{ path := "project.name", message := "Project name is required",
         code := "MISSING_PROJECT_NAME" }]
     else []) ++
    (if jsGE manifest.thresholds.critical manifest.thresholds.low then
      [{ path := "thresholds", message := "Critical threshold must be less than low",
         code := "INVALID_THRESHOLDS" }]
     else []) ++
    (if jsGE manifest.thresholds.low manifest.thresholds.nominal then
      [{ path := "thresholds", message := "Low threshold must be less than nominal",
         code := "INVALID_THRESHOLDS" }]
     else []) ++
    (if jsGE manifest.thresholds.nominal manifest.thresholds.optimal then
      [{ path := "thresholds", message := "Nominal threshold must be less than optimal",
         code := "INVALID_THRESHOLDS" }]
     else []) ++
    (if jsLT manifest.diamond_hands.threshold (.n ⟨0, 1⟩) ||
        jsGT manifest.diamond_hands.threshold (.n ⟨1, 1⟩) then
      [{ path := "diamond_hands.threshold", message := "Threshold must be between 0 and 1",
         code := "INVALID_THRESHOLD" }]
     else [])
  let weightSum :=
    jsAddS (jsAddS (jsAddS (jprimOf manifest.weights.A3_governance)
      manifest.weights.A4_architecture) manifest.weights.A5_implementation)
      manifest.weights.validation
  let warnings : List ValidationWarning :=
    match jnumAdd (jsumToNumber weightSum) (.val ⟨-1, 1⟩) with
    | .val d =>
      if JSNumber.ltb ⟨1, 100⟩ d.absv then
        [{ path := "weights",
           message := "Weights sum to " ++ jsumToString weightSum ++ ", expected 1.0",
           code := "WEIGHT_SUM" }]
      else []
    | .nan => []
  { valid := errors.length = 0, errors, warnings }

/-- `ManifestLoadResult`. -/
structure ManifestLoadResult where
  success : Bool
  manifest : Option Manifest := none
  error : Option String := none
  validationResult : Option ValidationResult := none

/-- `loadManifest`, with the file-system read modelled as an
`Option String` (the source's `fs.existsSync`/`readFileSync`). -/
def loadManifest (file : Option String) : ManifestLoadResult :=
  match file with
  | none => { success := false, error := some "Manifest file not found" }
  | some content =>
    let manifest := parseYaml content
    let validationResult := validateManifest manifest
    if !validationResult.valid then
      { success := false,
        error := some ("Manifest validation failed: " ++
          String.intercalate ", " (validationResult.errors.map (·.message))),
        validationResult := some validationResult }
    else
      { success := true, manifest := some manifest,
        validationResult := some validationResult }

/-! #### `hashManifest`

`JSON.stringify(manifest, Object.keys(manifest).sort())`: per the
serialization algorithm, a replacer *array* becomes the property list
used at **every** object level — it both orders the emitted keys and
filters out every key not in the list; array elements are not
filtered. -/

/-- The own keys of a normalized manifest in insertion order. -/
def manifestKeys : List String :=
  ["version", "project", "thresholds", "weights", "diamond_hands",
   "thunder_strike", "metrics", "evidence", "ci", "notifications", "roles"]

/-- `Object.keys(manifest).sort()`. -/
def sortedManifestKeys : List String := jsSortStrings manifestKeys

/-- Serialize a value under a replacer property list `K` (applied to
every nested object, not to array elements). -/
def serFilt (K : List String) : JValue → String
  | .s v => A4.jsonStr v
  | .n q => q.toStr
  | .b true => "true"
  | .b false => "false"
  | .arr xs => "[" ++ commaJoin (serFiltList K xs) ++ "]"
  | .obj fs =>
    lbrace ++
      commaJoin (K.filterMap (fun k =>
        (jlookup k (serFiltFields K fs)).map (fun sv => A4.jsonStr k ++ ":" ++ sv))) ++
      rbrace
where
  serFiltList (K : List String) : List JValue → List String
    | [] => []
    | x :: xs => serFilt K x :: serFiltList K xs
  serFiltFields (K : List String) : List (String × JValue) → List (String × String)
    | [] => []
    | (k, v) :: fs => (k, serFilt K v) :: serFiltFields K fs

/-- Top-level serialization under a replacer list; a property whose
value is `undefined` (`none`) is skipped. -/
def stringifyFiltered (K : List String) (fields : List (String × Option JValue)) : String :=
  lbrace ++
    commaJoin (K.filterMap (fun k =>
      match jlookup k fields with
      | some (some v) => some (A4.jsonStr k ++ ":" ++ serFilt K v)
      | _ => none)) ++
    rbrace

/-- The metric entry as the JS object it is at run time. -/
def metricJ (mc : MetricN) : JValue :=
  .obj [("description", mc.description), ("weight", mc.weight),
        ("sources", .arr mc.sources)]

/-- The normalized manifest as the JS object it is at run time
(property insertion order of `normalizeManifest`). -/
def manifestObj (m : Manifest) : List (String × Option JValue) :=
  [("version", some m.version),
   ("project", some (.obj
      [("name", m.project.name), ("description", m.project.description),
       ("repository", m.project.repository)])),
   ("thresholds", some (.obj
      [("critical", m.thresholds.critical), ("low", m.thresholds.low),
       ("nominal", m.thresholds.nominal), ("optimal", m.thresholds.optimal)])),
   ("weights", some (.obj
      [("A3_governance", m.weights.A3_governance),
       ("A4_architecture", m.weights.A4_architecture),
       ("A5_implementation", m.weights.A5_implementation),
       ("validation", m.weights.validation)])),
   ("diamond_hands", some (.obj
      [("threshold", m.diamond_hands.threshold),
       ("required_validation_score", m.diamond_hands.required_validation_score),
       ("approval_required", m.diamond_hands.approval_required),
       ("approvers", .arr m.diamond_hands.approvers)])),
   ("thunder_strike", some (.obj
      [("validation_levels", .arr m.thunder_strike.validation_levels),
       ("required_for_advancement", .arr m.thunder_strike.required_for_advancement)])),
   ("metrics", some (.obj (m.metrics.map (fun kv => (kv.1, metricJ kv.2))))),
   ("evidence", some (.obj
      [("output_directory", m.evidence.output_directory),
       ("formats", .arr m.evidence.formats),
       ("retention_days", m.evidence.retention_days),
       ("required_artifacts", .arr m.evidence.required_artifacts)])),
   ("ci", some (.obj
      [("trigger_on", .arr m.ci.trigger_on), ("schedule", m.ci.schedule),
       ("jobs", m.ci.jobs)])),
   ("notifications", m.notifications),
   ("roles", m.roles)]

/-- The string hashed by `hashManifest`:
`JSON.stringify(manifest, Object.keys(manifest).sort())`. -/
def serializeManifest (m : Manifest) : String :=
  stringifyFiltered sortedManifestKeys (manifestObj m)

/-- `hashManifest` (abstract truncated SHA-256). -/
def hashManifest (sha : String → String) (m : Manifest) : String :=
  A4.generateHash sha (serializeManifest m)

/-- `JSON.stringify` of a parsed value with no replacer (every own
property, insertion order). -/
def serAll : JValue → String
  | .s v => A4.jsonStr v
  | .n q => q.toStr
  | .b true => "true"
  | .b false => "false"
  | .arr xs => "[" ++ commaJoin (serAllList xs) ++ "]"
  | .obj fs => lbrace ++ commaJoin (serAllFields fs) ++ rbrace
where
  serAllList : List JValue → List String
    | [] => []
    | x :: xs => serAll x :: serAllList xs
  serAllFields : List (String × JValue) → List String
    | [] => []
    | (k, v) :: fs => (A4.jsonStr k ++ ":" ++ serAll v) :: serAllFields fs

/-- `JSON.stringify(manifest)` with no replacer: a complete rendering
of the normalized manifest (`undefined` properties skipped), used to
express that two parses are semantically identical. -/
def manifestFullJson (m : Manifest) : String :=
  lbrace ++
    commaJoin ((manifestObj m).filterMap (fun kv =>
      match kv.2 with
      | some v => some (A4.jsonStr kv.1 ++ ":" ++ serAll v)
      | none => none)) ++
    rbrace

/-- `hashContent`. -/
def hashContent (sha : String → String) (content : String) : String :=
  A4.generateHash sha content

/-- Check that a parsed value is a given number (used to state what a
concrete document parses to). -/
def jIsNum (v : JValue) (x : JSNumber) : Bool :=
  match v with
  | .n q => q == x
  | _ => false

end Vybe.ML

namespace Vybe.Fix

open Vybe.A5 Vybe.ML

/-! ### Concrete fixtures used by the theorems -/

/-- Metadata shared by the two scenario bundles (the repo's adjudicator
smoke-test fixture values). -/
def sharedMeta : GenerationMetadata :=
  { timestamp := "2024-01-01T00:00:00Z", version := "0.1.0",
    manifestHash := "manifest123", durationMs := ⟨100, 1⟩ }

/-- Scenario bundle: one file `index.ts` with `export const foo = 1;`. -/
def bundleFoo1 : CodegenOutput :=
  { files := [{ path := "index.ts", content := "export const foo = 1;", hash := "abc123" }],
    metadata := sharedMeta,
    hash := "a3hash" }

/-- Scenario bundle: one file `index.ts` with `export const foo = 2;`
(different content, hence a different content hash). -/
def bundleFoo2 : CodegenOutput :=
  { files := [{ path := "index.ts", content := "export const foo = 2;", hash := "def456" }],
    metadata := sharedMeta,
    hash := "a4hash-diff" }

/-- A bundle with the same `(path, hash)` pairs and manifest hash as
`bundleFoo1` but a different timestamp and duration. -/
def bundleFoo1Later : CodegenOutput :=
  { files := [{ path := "index.ts", content := "export const foo = 1;", hash := "abc123" }],
    metadata := { timestamp := "2024-01-01T00:00:09Z", version := "0.1.0",
                  manifestHash := "manifest123", durationMs := ⟨150, 1⟩ },
    hash := "a3hash" }

/-- A bundle with no files at all. -/
def emptyBundle : CodegenOutput :=
  { files := [], metadata := sharedMeta, hash := "emptyhash" }

/-- The `MISSING_FILE` diff that `compare` emits for
`bundleFoo1` vs `emptyBundle`. -/
def missingIndexDiff : SemanticDiff :=
  { path := "index.ts", type := .MISSING_FILE, severity := .critical,
    description := "File exists in A3 but missing in A4",
    a3Value := some "present", a4Value := some "missing" }

/-- A concrete stand-in for the truncated SHA-256 hex digest function
(used only where a hash inequality is exhibited; the real digest
separates these inputs as well, barring a SHA-256 collision). -/
def idDigest : String → String := fun s => s

/-- A generated-file constant used to instantiate the parametric
generator in witnesses. -/
def constFile : GeneratedFile := { path := "p.ts", content := "c", hash := "h" }

/-- Scenario document for the non-increasing-thresholds claim:
`critical = 0.6`, `low = 0.5`, `nominal`/`optimal` absent (defaulted). -/
def c7doc : String :=
  "version: \"2.0.0\"\nproject:\n  name: Test\nthresholds:\n  critical: 0.6\n  low: 0.5\n"

/-- A well-formed document with sections and keys in one order... -/
def c6docA : String :=
  "version: 1.0.0\nproject:\n  name: Demo\nthresholds:\n  critical: 0.3\n  low: 0.5\n  nominal: 0.7\n  optimal: 0.9\n"

/-- ...and the same document with its sections and nested keys
reordered. -/
def c6docB : String :=
  "thresholds:\n  low: 0.5\n  critical: 0.3\n  optimal: 0.9\n  nominal: 0.7\nversion: 1.0.0\nproject:\n  name: Demo\n"

/-- A normalized manifest whose single metric is named `version` — a
nested key that collides with a top-level key name. -/
def m9a : Manifest :=
  { version := .s "2.0.0",
    project := { name := .s "P", description := .s "", repository := .s "" },
    thresholds := { critical := .n ⟨3, 10⟩, low := .n ⟨5, 10⟩,
                    nominal := .n ⟨7, 10⟩, optimal := .n ⟨9, 10⟩ },
    weights := { A3_governance := .n ⟨3, 10⟩, A4_architecture := .n ⟨25, 100⟩,
                 A5_implementation := .n ⟨25, 100⟩, validation := .n ⟨2, 10⟩ },
    diamond_hands := { threshold := .n ⟨7, 10⟩, required_validation_score := .n ⟨8, 10⟩,
                       approval_required := .b true, approvers := [] },
    thunder_strike := { validation_levels := [.s "self_assessment"],
                        required_for_advancement := [.s "self_assessment"] },
    metrics := [("version", { description := .s "d", weight := .n ⟨2, 10⟩, sources := [] })],
    evidence := { output_directory := .s "evidence/A7-bundle", formats := [.s "json"],
                  retention_days := .n ⟨90, 1⟩, required_artifacts := [] },
    ci := { trigger_on := [.s "push"], schedule := .s "0 */6 * * *", jobs := .obj [] },
    notifications := none,
    roles := none }

/-- The same manifest except that the single metric is named
`coherence` (not a top-level key name), with identical content. -/
def m9b : Manifest :=
  { m9a with
    metrics := [("coherence", { description := .s "d", weight := .n ⟨2, 10⟩, sources := [] })] }

/-- `m9a` with every section the replacer filters out changed:
different project, thresholds, weights, diamond-hands, thunder-strike,
evidence and ci values, and a different content for the (same-named)
metric. -/
def m9c : Manifest :=
  { version := .s "2.0.0",
    project := { name := .s "Q", description := .s "other", repository := .s "r" },
    thresholds := { critical := .n ⟨1, 10⟩, low := .n ⟨2, 10⟩,
                    nominal := .n ⟨3, 10⟩, optimal := .n ⟨4, 10⟩ },
    weights := { A3_governance := .n ⟨1, 10⟩, A4_architecture := .n ⟨2, 10⟩,
                 A5_implementation := .n ⟨3, 10⟩, validation := .n ⟨4, 10⟩ },
    diamond_hands := { threshold := .n ⟨1, 10⟩, required_validation_score := .n ⟨1, 10⟩,
                       approval_required := .b false, approvers := [.s "alice"] },
    thunder_strike := { validation_levels := [.s "peer_review"],
                        required_for_advancement := [] },
    metrics := [("version", { description := .s "changed", weight := .n ⟨9, 10⟩,
                              sources := [.s "src"] })],
    evidence := { output_directory := .s "elsewhere", formats := [],
                  retention_days := .n ⟨1, 1⟩, required_artifacts := [.s "x"] },
    ci := { trigger_on := [], schedule := .s "never", jobs := .s "none" },
    notifications := none,
    roles := none }

end Vybe.Fix

/-! ## Helper lemmas -/

namespace Vybe

theorem mem_insertUniq {x a : String} {l : List String} :
    x ∈ insertUniq l a ↔ x ∈ l ∨ x = a := by
  by_cases h : a ∈ l
  · simp only [insertUniq, if_pos h]
    constructor
    · exact Or.inl
    · rintro (hx | rfl)
      · exact hx
      · exact h
  · simp [insertUniq, if_neg h]

theorem mem_foldl_insertUniq (x : String) :
    ∀ (l acc : List String), x ∈ l.foldl insertUniq acc ↔ x ∈ acc ∨ x ∈ l
  | [], acc => by simp
  | a :: l, acc => by
    rw [List.foldl_cons, mem_foldl_insertUniq x l (insertUniq acc a)]
    simp only [mem_insertUniq, List.mem_cons]
    tauto

theorem mem_jsSet {x : String} {l : List String} : x ∈ jsSet l ↔ x ∈ l := by
  simp [jsSet, mem_foldl_insertUniq]

theorem filter_length_pos_of_mem {α : Type} {p : α → Bool} {l : List α} {d : α}
    (hd : d ∈ l) (hp : p d = true) : 0 < (l.filter p).length :=
  List.length_pos.mpr (List.ne_nil_of_mem (List.mem_filter.mpr ⟨hd, hp⟩))

theorem filter_eq_nil_of_all {α : Type} {p : α → Bool} :
    ∀ {l : List α}, (∀ d ∈ l, p d = false) → l.filter p = []
  | [], _ => rfl
  | a :: l, h => by
    have ha := h a (List.mem_cons_self a l)
    simp only [List.filter_cons, ha, Bool.false_eq_true, if_false]
    exact filter_eq_nil_of_all (fun d hd => h d (List.mem_cons_of_mem a hd))

end Vybe

namespace Vybe.A5

theorem adjudicate_diffs (now : String) (input : ComparisonInput) :
    (adjudicate now input).diffs = compare input := rfl

theorem adjudicate_of_empty (now : String) {input : ComparisonInput}
    (h : compare input = []) :
    (adjudicate now input).verdict = .MATCH ∧
    (adjudicate now input).semanticallyEquivalent = true ∧
    (adjudicate now input).confidence = ⟨1, 1⟩ := by
  simp [adjudicate, h]

theorem adjudicate_of_critical (now : String) {input : ComparisonInput}
    (h : ∃ d ∈ compare input, d.severity = .critical) :
    (adjudicate now input).verdict = .MISMATCH ∧
    (adjudicate now input).semanticallyEquivalent = false ∧
    (adjudicate now input).confidence = ⟨95, 100⟩ := by
  obtain ⟨d, hd, hs⟩ := h
  have hlen : ¬ (compare input).length = 0 := by
    simp [List.length_eq_zero]
    exact List.ne_nil_of_mem hd
  have hcrit : 0 < ((compare input).filter (fun d => d.severity = .critical)).length :=
    filter_length_pos_of_mem hd (by simp [hs])
  simp only [adjudicate, if_neg hlen, if_pos hcrit]
  exact ⟨by trivial, by trivial, by trivial⟩

theorem adjudicate_of_major (now : String) {input : ComparisonInput}
    (hm : ∃ d ∈ compare input, d.severity = .major)
    (hc : ∀ d ∈ compare input, d.severity ≠ .critical) :
    (adjudicate now input).verdict = .PARTIAL_MATCH ∧
    (adjudicate now input).semanticallyEquivalent = false ∧
    (adjudicate now input).confidence = ⟨8, 10⟩ := by
  obtain ⟨d, hd, hs⟩ := hm
  have hlen : ¬ (compare input).length = 0 := by
    simp [List.length_eq_zero]
    exact List.ne_nil_of_mem hd
  have hcrit : (compare input).filter (fun d => d.severity = .critical) = [] :=
    filter_eq_nil_of_all (fun e he => by simp [hc e he])
  have hmaj : 0 < ((compare input).filter (fun d => d.severity = .major)).length :=
    filter_length_pos_of_mem hd (by simp [hs])
  simp only [adjudicate, if_neg hlen, hcrit, List.length_nil, lt_irrefl, if_neg,
    if_pos hmaj, Nat.lt_irrefl, not_false_eq_true]
  exact ⟨by trivial, by trivial, by trivial⟩

theorem adjudicate_of_minor_info (now : String) {input : ComparisonInput}
    (hne : compare input ≠ [])
    (hall : ∀ d ∈ compare input, d.severity = .minor ∨ d.severity = .info) :
    (adjudicate now input).verdict = .MATCH ∧
    (adjudicate now input).semanticallyEquivalent = true ∧
    (adjudicate now input).confidence = ⟨9, 10⟩ := by
  have hlen : ¬ (compare input).length = 0 := by simpa [List.length_eq_zero] using hne
  have hcrit : (compare input).filter (fun d => d.severity = .critical) = [] :=
    filter_eq_nil_of_all (fun e he => by rcases hall e he with h | h <;> simp [h])
  have hmaj : (compare input).filter (fun d => d.severity = .major) = [] :=
    filter_eq_nil_of_all (fun e he => by rcases hall e he with h | h <;> simp [h])
  simp only [adjudicate, if_neg hlen, hcrit, hmaj, List.length_nil, lt_irrefl, if_neg,
    Nat.lt_irrefl, not_false_eq_true]
  exact ⟨by trivial, by trivial, by trivial⟩

end Vybe.A5

namespace Vybe.A5

theorem mem_ite_singleton {α : Type} {P : Prop} [Decidable P] {x d : α}
    (hd : d ∈ (if P then [x] else [])) : d = x := by
  split at hd
  · simpa using hd
  · simp at hd

theorem compareContentSem_mem {a b p : String} {opts : Option ComparisonOptions}
    {d : SemanticDiff} (hd : d ∈ compareContentSem a b p opts) :
    d.severity = .major ∧ d.type = .CONTENT_DIFF := by
  simp only [compareContentSem] at hd
  have hx := mem_ite_singleton hd
  subst hx
  exact ⟨rfl, rfl⟩

theorem compare_mem_cases (input : ComparisonInput) :
    ∀ d ∈ compare input,
      (d.severity = .critical ∧ (d.type = .MISSING_FILE ∨ d.type = .EXTRA_FILE)) ∨
      (d.severity = .major ∧ d.type = .CONTENT_DIFF) := by
  intro d hd
  simp only [compare, List.mem_append] at hd
  rcases hd with (hd | hd) | hd
  · obtain ⟨p, hp, rfl⟩ := List.mem_map.mp hd
    exact Or.inl ⟨rfl, Or.inl rfl⟩
  · obtain ⟨p, hp, rfl⟩ := List.mem_map.mp hd
    exact Or.inl ⟨rfl, Or.inr rfl⟩
  · obtain ⟨f, hf, hdf⟩ := List.mem_flatMap.mp hd
    rcases hfind : input.a4Output.files.find? (fun g => g.path = f.path) with _ | a4f
    · simp only [hfind] at hdf
      simp at hdf
    · simp only [hfind] at hdf
      by_cases hh : f.hash ≠ a4f.hash
      · rw [if_pos hh] at hdf
        have h2 := compareContentSem_mem hdf
        exact Or.inr h2
      · rw [if_neg hh] at hdf
        simp at hdf

theorem buildDiff_mismatches_critical (now : String) {b1 b2 : CodegenOutput}
    (h : (∃ p ∈ b1.files.map GeneratedFile.path, p ∉ b2.files.map GeneratedFile.path) ∨
         (∃ p ∈ b2.files.map GeneratedFile.path, p ∉ b1.files.map GeneratedFile.path)) :
    ∃ m ∈ (buildDiff now b1 b2).mismatches,
      (m.type = .MISSING_FILE ∨ m.type = .EXTRA_FILE) ∧ m.severity = .critical := by
  rcases h with ⟨p, hp, hnp⟩ | ⟨p, hp, hnp⟩
  · refine ⟨{ type := .MISSING_FILE, severity := .critical, path := p, description := "File exists in A3 but missing in A4", a3Value := some "present", a4Value := some "missing" }, ?_, Or.inl rfl, rfl⟩
    simp only [buildDiff, List.mem_append]
    left; left; left
    exact List.mem_map.mpr ⟨p,
      List.mem_filter.mpr ⟨mem_jsSet.mpr hp,
        by simp only [decide_eq_true_eq, mem_jsSet]; exact hnp⟩, rfl⟩
  · refine ⟨{ type := .EXTRA_FILE, severity := .critical, path := p, description := "File exists in A4 but missing in A3", a3Value := some "missing", a4Value := some "present" }, ?_, Or.inr rfl, rfl⟩
    simp only [buildDiff, List.mem_append]
    left; left; right
    exact List.mem_map.mpr ⟨p,
      List.mem_filter.mpr ⟨mem_jsSet.mpr hp,
        by simp only [decide_eq_true_eq, mem_jsSet]; exact hnp⟩, rfl⟩

theorem buildDiff_criticalCount (now : String) (b1 b2 : CodegenOutput) :
    (buildDiff now b1 b2).summary.criticalCount =
      ((buildDiff now b1 b2).mismatches.filter (fun m => m.severity = .critical)).length := rfl

theorem report_mismatch_of_critical {r : DiffResult} (h : 0 < r.summary.criticalCount) :
    (generateDiffReport r).verdict = .MISMATCH := by
  simp only [generateDiffReport]
  rw [if_neg, if_pos h]
  rintro ⟨h0, _⟩
  omega

end Vybe.A5

/-! ## The claims -/

namespace Vybe.Claims

open Vybe.A5 Vybe.ML

/-- Claim C3: on the result of `buildDiff`, the verdict field of
`generateDiffReport` is `MATCH` exactly when the summary has zero
critical and zero major mismatches, `MISMATCH` exactly when at least
one critical mismatch exists, and `PARTIAL_MATCH` in every remaining
case. -/
theorem C3_report_verdict_of_summary (now : String) (b1 b2 : CodegenOutput) :
    ((generateDiffReport (buildDiff now b1 b2)).verdict = .MATCH ↔
      ((buildDiff now b1 b2).summary.criticalCount = 0 ∧
        (buildDiff now b1 b2).summary.majorCount = 0)) ∧
    ((generateDiffReport (buildDiff now b1 b2)).verdict = .MISMATCH ↔
      0 < (buildDiff now b1 b2).summary.criticalCount) ∧
    ((generateDiffReport (buildDiff now b1 b2)).verdict = .PARTIAL_MATCH ↔
      ((buildDiff now b1 b2).summary.criticalCount = 0 ∧
        0 < (buildDiff now b1 b2).summary.majorCount)) := by
  generalize buildDiff now b1 b2 = r
  simp only [generateDiffReport]
  rcases Nat.eq_zero_or_pos r.summary.criticalCount with hc | hc
  · rcases Nat.eq_zero_or_pos r.summary.majorCount with hm | hm
    · rw [if_pos ⟨hc, hm⟩]
      refine ⟨?_, ?_, ?_⟩ <;> simp_all
    · rw [if_neg (by omega : ¬(r.summary.criticalCount = 0 ∧ r.summary.majorCount = 0)),
        if_neg (by omega : ¬ r.summary.criticalCount > 0)]
      refine ⟨?_, ?_, ?_⟩ <;> simp_all <;> omega
  · rw [if_neg (by omega : ¬(r.summary.criticalCount = 0 ∧ r.summary.majorCount = 0)),
      if_pos (by omega : r.summary.criticalCount > 0)]
    refine ⟨?_, ?_, ?_⟩ <;> simp_all <;> omega

/-- Witness for C3: for two identical bundles the summary counts are
zero and the derived verdict is `MATCH`. -/
theorem C3_report_verdict_of_summary_witness :
    (generateDiffReport (buildDiff "T" Fix.bundleFoo1 Fix.bundleFoo1)).verdict = .MATCH :=
  (C3_report_verdict_of_summary "T" Fix.bundleFoo1 Fix.bundleFoo1).1.mpr (by decide)

set_option maxRecDepth 10000 in
/-- Claim C4: for the two one-file bundles `index.ts` with
`export const foo = 1;` vs `export const foo = 2;` (different content
hashes, equal metadata), `buildDiff` reports exactly one mismatch — a
major `HASH_MISMATCH` — and zero `CONTENT_DIFF` mismatches (line counts
agree and the export name `foo` matches); `adjudicate` on the same pair
returns `PARTIAL_MATCH` with confidence 0.8 (`⟨8, 10⟩`) and
`semanticallyEquivalent = false`. -/
theorem C4_scenario_one_hash_mismatch :
    (buildDiff "T" Fix.bundleFoo1 Fix.bundleFoo2).mismatches =
      [{ type := .HASH_MISMATCH, severity := .major, path := "index.ts", description := "File hashes differ", a3Value := some "abc123", a4Value := some "def456" }] ∧
    ((buildDiff "T" Fix.bundleFoo1 Fix.bundleFoo2).mismatches.filter
        (fun m => m.type = .HASH_MISMATCH)).length = 1 ∧
    ((buildDiff "T" Fix.bundleFoo1 Fix.bundleFoo2).mismatches.filter
        (fun m => m.type = .CONTENT_DIFF)).length = 0 ∧
    (adjudicate "T" { a3Output := Fix.bundleFoo1, a4Output := Fix.bundleFoo2 }).verdict =
      .PARTIAL_MATCH ∧
    (adjudicate "T" { a3Output := Fix.bundleFoo1, a4Output := Fix.bundleFoo2 }).confidence =
      ⟨8, 10⟩ ∧
    (adjudicate "T" { a3Output := Fix.bundleFoo1, a4Output := Fix.bundleFoo2 }).semanticallyEquivalent = false := by
  refine ⟨?_, ?_, ?_, ?_, ?_, ?_⟩ <;> decide

set_option maxRecDepth 10000 in
/-- Claim C7: the document with thresholds `critical: 0.6`, `low: 0.5`
and `nominal`/`optimal` left to their defaults 0.7 and 0.9 produces
exactly one validation error, with code `INVALID_THRESHOLDS`, and
`loadManifest` on it fails (`success = false`). -/
theorem C7_nonincreasing_thresholds :
    jIsNum (parseYaml Fix.c7doc).thresholds.critical ⟨6, 10⟩ = true ∧
    jIsNum (parseYaml Fix.c7doc).thresholds.low ⟨5, 10⟩ = true ∧
    jIsNum (parseYaml Fix.c7doc).thresholds.nominal ⟨7, 10⟩ = true ∧
    jIsNum (parseYaml Fix.c7doc).thresholds.optimal ⟨9, 10⟩ = true ∧
    (validateManifest (parseYaml Fix.c7doc)).errors.length = 1 ∧
    ((validateManifest (parseYaml Fix.c7doc)).errors.map (fun e => e.code)) =
      ["INVALID_THRESHOLDS"] ∧
    (loadManifest (some Fix.c7doc)).success = false := by
  refine ⟨?_, ?_, ?_, ?_, ?_, ?_, ?_⟩ <;> decide

/-- Claim C8 (code bug): the spec requires a missing bundle to yield an
`InvalidInput` failure and an unexpected internal fault to surface as
verdict `ERROR`.  The code has neither path: with a missing bundle,
`compare` throws a `TypeError` that `adjudicate` propagates uncaught
(modelled by `Except.error`), and no execution of `adjudicate` can
produce the `ERROR` verdict — its verdict is always `MATCH`, `MISMATCH`
or `PARTIAL_MATCH`. -/
theorem C8_no_error_verdict_path :
    adjudicateJS "T" { a3Output := none, a4Output := some Fix.bundleFoo1 } =
      Except.error "TypeError" ∧
    adjudicateJS "T" { a3Output := some Fix.bundleFoo1, a4Output := none } =
      Except.error "TypeError" ∧
    ∀ (now : String) (input : ComparisonInput),
      (adjudicate now input).verdict = .MATCH ∨
      (adjudicate now input).verdict = .MISMATCH ∨
      (adjudicate now input).verdict = .PARTIAL_MATCH := by
  refine ⟨rfl, rfl, fun now input => ?_⟩
  simp only [adjudicate]
  split
  · exact Or.inl rfl
  · split
    · exact Or.inr (Or.inl rfl)
    · split
      · exact Or.inr (Or.inr rfl)
      · exact Or.inl rfl

end Vybe.Claims

namespace Vybe.Claims

open Vybe.A5 Vybe.ML

/-- Claim C2: `adjudicate` follows the verdict table over the diffs
that `compare` yields for the same input — `MATCH`/equivalent/1.0 on
zero diffs; `MISMATCH`/not-equivalent/0.95 on at least one critical
diff; `PARTIAL_MATCH`/not-equivalent/0.8 on at least one major and no
critical diff; and `MATCH`/equivalent/0.9 when there is at least one
diff and every diff is minor or info (confidences are exact rationals:
`⟨95, 100⟩` is 0.95, etc.). -/
theorem C2_adjudicate_verdict_table (now : String) (input : ComparisonInput) :
    (A5.compare input = [] →
      (adjudicate now input).verdict = .MATCH ∧
      (adjudicate now input).semanticallyEquivalent = true ∧
      (adjudicate now input).confidence = ⟨1, 1⟩) ∧
    ((∃ d ∈ A5.compare input, d.severity = .critical) →
      (adjudicate now input).verdict = .MISMATCH ∧
      (adjudicate now input).semanticallyEquivalent = false ∧
      (adjudicate now input).confidence = ⟨95, 100⟩) ∧
    (((∃ d ∈ A5.compare input, d.severity = .major) ∧
        (∀ d ∈ A5.compare input, d.severity ≠ .critical)) →
      (adjudicate now input).verdict = .PARTIAL_MATCH ∧
      (adjudicate now input).semanticallyEquivalent = false ∧
      (adjudicate now input).confidence = ⟨8, 10⟩) ∧
    ((A5.compare input ≠ [] ∧
        (∀ d ∈ A5.compare input, d.severity = .minor ∨ d.severity = .info)) →
      (adjudicate now input).verdict = .MATCH ∧
      (adjudicate now input).semanticallyEquivalent = true ∧
      (adjudicate now input).confidence = ⟨9, 10⟩) :=
  ⟨fun h => adjudicate_of_empty now h,
   fun h => adjudicate_of_critical now h,
   fun h => adjudicate_of_major now h.1 h.2,
   fun h => adjudicate_of_minor_info now h.1 h.2⟩

/-- Witness for C2 at concrete inputs: identical bundles give zero
diffs and `MATCH` with confidence 1.0; a bundle missing from the other
side gives a critical diff and `MISMATCH` with confidence 0.95. -/
theorem C2_adjudicate_verdict_table_witness :
    ((adjudicate "T" { a3Output := Fix.bundleFoo1, a4Output := Fix.bundleFoo1 }).verdict =
        .MATCH ∧
      (adjudicate "T" { a3Output := Fix.bundleFoo1, a4Output := Fix.bundleFoo1 }).semanticallyEquivalent = true ∧
      (adjudicate "T" { a3Output := Fix.bundleFoo1, a4Output := Fix.bundleFoo1 }).confidence =
        ⟨1, 1⟩) ∧
    ((adjudicate "T" { a3Output := Fix.bundleFoo1, a4Output := Fix.emptyBundle }).verdict =
        .MISMATCH ∧
      (adjudicate "T" { a3Output := Fix.bundleFoo1, a4Output := Fix.emptyBundle }).semanticallyEquivalent = false ∧
      (adjudicate "T" { a3Output := Fix.bundleFoo1, a4Output := Fix.emptyBundle }).confidence =
        ⟨95, 100⟩) :=
  ⟨(C2_adjudicate_verdict_table "T" { a3Output := Fix.bundleFoo1, a4Output := Fix.bundleFoo1 }).1
      (by decide),
   (C2_adjudicate_verdict_table "T" { a3Output := Fix.bundleFoo1, a4Output := Fix.emptyBundle }).2.1
      ⟨Fix.missingIndexDiff, by decide, by decide⟩⟩

/-- Claim C5: whenever some file path is present in one bundle and
absent from the other, `buildDiff` emits at least one
`MISSING_FILE`/`EXTRA_FILE` mismatch at critical severity and
`generateDiffReport` derives `MISMATCH`; likewise `compare` emits at
least one critical diff and `adjudicate` returns `MISMATCH` (for any
comparison options). -/
theorem C5_missing_file_gives_mismatch (now : String) (b1 b2 : CodegenOutput)
    (opts : Option ComparisonOptions)
    (h : (∃ p ∈ b1.files.map GeneratedFile.path, p ∉ b2.files.map GeneratedFile.path) ∨
         (∃ p ∈ b2.files.map GeneratedFile.path, p ∉ b1.files.map GeneratedFile.path)) :
    (∃ m ∈ (buildDiff now b1 b2).mismatches,
      (m.type = .MISSING_FILE ∨ m.type = .EXTRA_FILE) ∧ m.severity = .critical) ∧
    (generateDiffReport (buildDiff now b1 b2)).verdict = .MISMATCH ∧
    (∃ d ∈ A5.compare { a3Output := b1, a4Output := b2, options := opts },
      d.severity = .critical) ∧
    (adjudicate now { a3Output := b1, a4Output := b2, options := opts }).verdict =
      .MISMATCH := by
  obtain ⟨m, hm, _, hsev⟩ := buildDiff_mismatches_critical now h
  have hcount : 0 < (buildDiff now b1 b2).summary.criticalCount := by
    rw [buildDiff_criticalCount]
    exact filter_length_pos_of_mem hm (by simp [hsev])
  have hcmp : ∃ d ∈ A5.compare { a3Output := b1, a4Output := b2, options := opts },
      d.severity = .critical := by
    rcases h with ⟨p, hp, hnp⟩ | ⟨p, hp, hnp⟩
    · refine ⟨{ path := p, type := .MISSING_FILE, severity := .critical, description := "File exists in A3 but missing in A4", a3Value := some "present", a4Value := some "missing" }, ?_, rfl⟩
      simp only [A5.compare, List.mem_append]
      left; left
      exact List.mem_map.mpr ⟨p,
        List.mem_filter.mpr ⟨mem_jsSet.mpr hp,
          by simp only [decide_eq_true_eq, mem_jsSet]; exact hnp⟩, rfl⟩
    · refine ⟨{ path := p, type := .EXTRA_FILE, severity := .critical, description := "File exists in A4 but missing in A3", a3Value := some "missing", a4Value := some "present" }, ?_, rfl⟩
      simp only [A5.compare, List.mem_append]
      left; right
      exact List.mem_map.mpr ⟨p,
        List.mem_filter.mpr ⟨mem_jsSet.mpr hp,
          by simp only [decide_eq_true_eq, mem_jsSet]; exact hnp⟩, rfl⟩
  exact ⟨buildDiff_mismatches_critical now h, report_mismatch_of_critical hcount, hcmp,
    (adjudicate_of_critical now hcmp).1⟩

/-- Witness for C5: `bundleFoo1` has `index.ts`, the empty bundle does
not; the one-sided-path hypothesis is discharged by computation. -/
theorem C5_missing_file_gives_mismatch_witness :
    (∃ m ∈ (buildDiff "T" Fix.bundleFoo1 Fix.emptyBundle).mismatches,
      (m.type = .MISSING_FILE ∨ m.type = .EXTRA_FILE) ∧ m.severity = .critical) ∧
    (generateDiffReport (buildDiff "T" Fix.bundleFoo1 Fix.emptyBundle)).verdict = .MISMATCH ∧
    (∃ d ∈ A5.compare { a3Output := Fix.bundleFoo1, a4Output := Fix.emptyBundle, options := none },
      d.severity = .critical) ∧
    (adjudicate "T" { a3Output := Fix.bundleFoo1, a4Output := Fix.emptyBundle, options := none }).verdict = .MISMATCH :=
  C5_missing_file_gives_mismatch "T" Fix.bundleFoo1 Fix.emptyBundle none
    (Or.inl ⟨"index.ts", by decide, by decide⟩)

/-- Claim C10: every diff `compare` produces is critical
(`MISSING_FILE` or `EXTRA_FILE`) or major (`CONTENT_DIFF`), never minor
or info; consequently `adjudicate` only ever returns `MATCH` with
confidence 1.0, `MISMATCH` with confidence 0.95, or `PARTIAL_MATCH`
with confidence 0.8 — the `MATCH`-with-0.9 (only minor/info diffs)
branch is unreachable. -/
theorem C10_compare_severity_closed (now : String) (input : ComparisonInput) :
    (∀ d ∈ A5.compare input,
      (d.severity = .critical ∧ (d.type = .MISSING_FILE ∨ d.type = .EXTRA_FILE)) ∨
      (d.severity = .major ∧ d.type = .CONTENT_DIFF)) ∧
    (((adjudicate now input).verdict = .MATCH ∧
        (adjudicate now input).confidence = ⟨1, 1⟩ ∧
        (adjudicate now input).semanticallyEquivalent = true) ∨
      ((adjudicate now input).verdict = .MISMATCH ∧
        (adjudicate now input).confidence = ⟨95, 100⟩ ∧
        (adjudicate now input).semanticallyEquivalent = false) ∨
      ((adjudicate now input).verdict = .PARTIAL_MATCH ∧
        (adjudicate now input).confidence = ⟨8, 10⟩ ∧
        (adjudicate now input).semanticallyEquivalent = false)) ∧
    (adjudicate now input).confidence ≠ ⟨9, 10⟩ := by
  have hcases := compare_mem_cases input
  have htri : ((adjudicate now input).verdict = .MATCH ∧
      (adjudicate now input).confidence = ⟨1, 1⟩ ∧
      (adjudicate now input).semanticallyEquivalent = true) ∨
      ((adjudicate now input).verdict = .MISMATCH ∧
        (adjudicate now input).confidence = ⟨95, 100⟩ ∧
        (adjudicate now input).semanticallyEquivalent = false) ∨
      ((adjudicate now input).verdict = .PARTIAL_MATCH ∧
        (adjudicate now input).confidence = ⟨8, 10⟩ ∧
        (adjudicate now input).semanticallyEquivalent = false) := by
    rcases hemp : A5.compare input with _ | ⟨d0, rest⟩
    · have h := adjudicate_of_empty now hemp
      exact Or.inl ⟨h.1, h.2.2, h.2.1⟩
    · have hd0 : d0 ∈ A5.compare input := by rw [hemp]; exact List.mem_cons_self d0 rest
      by_cases hcrit : ∃ d ∈ A5.compare input, d.severity = .critical
      · have h := adjudicate_of_critical now hcrit
        exact Or.inr (Or.inl ⟨h.1, h.2.2, h.2.1⟩)
      · push_neg at hcrit
        have hmaj : d0.severity = .major := by
          rcases hcases d0 hd0 with ⟨hs, _⟩ | ⟨hs, _⟩
          · exact absurd hs (hcrit d0 hd0)
          · exact hs
        have h := adjudicate_of_major now ⟨d0, hd0, hmaj⟩ hcrit
        exact Or.inr (Or.inr ⟨h.1, h.2.2, h.2.1⟩)
  refine ⟨hcases, htri, ?_⟩
  rcases htri with ⟨_, hc, _⟩ | ⟨_, hc, _⟩ | ⟨_, hc, _⟩ <;> simp_all
end Vybe.Claims

namespace Vybe.Claims

/-- Claim C1: running the A4 (tree-render) generator twice on the same
manifest text yields bundles with identical aggregate hash, whatever
the two runs' timestamps and durations are — stated for every choice of
the generator's pure subcomponents (manifest reader, manifest
stringifier, file builders), which in the source take no clock input —
and `generateOutputHash` depends only on the `(path, hash)` pairs of
the generated files and on the manifest hash, never on the metadata
timestamp or duration values. -/
theorem C1_generate_hash_time_independent {M : Type}
    (parseManifestRegex : String → M) (stringifyManifest : M → String)
    (buildTypesFile buildConstantsFile buildValidatorsFile buildConfigFile :
      M → A5.GeneratedFile)
    (buildIndexFile : List A5.GeneratedFile → A5.GeneratedFile)
    (sha : String → String) (t1 t2 : String) (d1 d2 : JSNumber) (content : String) :
    (A4.generate parseManifestRegex stringifyManifest buildTypesFile buildConstantsFile
        buildValidatorsFile buildConfigFile buildIndexFile sha t1 d1 content).hash =
      (A4.generate parseManifestRegex stringifyManifest buildTypesFile buildConstantsFile
        buildValidatorsFile buildConfigFile buildIndexFile sha t2 d2 content).hash ∧
    (∀ o1 o2 : A5.CodegenOutput,
      o1.files.map (fun f => (f.path, f.hash)) = o2.files.map (fun f => (f.path, f.hash)) →
      o1.metadata.manifestHash = o2.metadata.manifestHash →
      A4.generateOutputHash sha o1 = A4.generateOutputHash sha o2) := by
  constructor
  · rfl
  · intro o1 o2 h1 h2
    simp only [A4.generateOutputHash, A4.generateHash, h1, h2]

/-- Witness for C1: a concrete instantiation — two runs with different
timestamps and durations share a hash, and two concrete outputs with
the same `(path, hash)` pairs and manifest hash but different
timestamps/durations share their `generateOutputHash`. -/
theorem C1_generate_hash_time_independent_witness :
    (A4.generate (fun s => s) (fun s => s) (fun _ => Fix.constFile) (fun _ => Fix.constFile)
        (fun _ => Fix.constFile) (fun _ => Fix.constFile) (fun _ => Fix.constFile)
        Fix.idDigest "2024-01-01T00:00:00Z" ⟨3, 1⟩ "doc").hash =
      (A4.generate (fun s => s) (fun s => s) (fun _ => Fix.constFile) (fun _ => Fix.constFile)
        (fun _ => Fix.constFile) (fun _ => Fix.constFile) (fun _ => Fix.constFile)
        Fix.idDigest "2024-01-01T00:00:09Z" ⟨42, 1⟩ "doc").hash ∧
    A4.generateOutputHash Fix.idDigest Fix.bundleFoo1 =
      A4.generateOutputHash Fix.idDigest Fix.bundleFoo1Later := by
  have h := C1_generate_hash_time_independent (fun (s : String) => s) (fun (s : String) => s)
    (fun _ => Fix.constFile) (fun _ => Fix.constFile) (fun _ => Fix.constFile)
    (fun _ => Fix.constFile) (fun _ => Fix.constFile) Fix.idDigest
    "2024-01-01T00:00:00Z" "2024-01-01T00:00:09Z" ⟨3, 1⟩ ⟨42, 1⟩ "doc"
  exact ⟨h.1, h.2 Fix.bundleFoo1 Fix.bundleFoo1Later (by decide) (by decide)⟩

end Vybe.Claims

namespace Vybe.Claims

set_option maxRecDepth 40000 in
/-- Claim C6: `hashManifest` hashes the serialization
`JSON.stringify(manifest, Object.keys(manifest).sort())`, whose
replacer key list is the manifest's own key list sorted
lexicographically (strictly sorted, and a permutation of the
insertion-order keys); consequently two semantically identical parses
coming from documents whose keys appear in different orders hash
identically: `c6docA` and `c6docB` are distinct documents differing
only in key order, their parses have identical complete JSON
renderings, and `hashManifest` agrees on them for every digest
function. -/
theorem C6_manifest_hash_key_order :
    List.Pairwise (fun a b => strLtb a b = true) ML.sortedManifestKeys ∧
    ML.sortedManifestKeys.Perm ML.manifestKeys ∧
    (Fix.c6docA == Fix.c6docB) = false ∧
    ML.manifestFullJson (ML.parseYaml Fix.c6docA) =
      ML.manifestFullJson (ML.parseYaml Fix.c6docB) ∧
    ∀ sha : String → String,
      ML.hashManifest sha (ML.parseYaml Fix.c6docA) =
        ML.hashManifest sha (ML.parseYaml Fix.c6docB) := by
  have hser : ML.serializeManifest (ML.parseYaml Fix.c6docA) =
      ML.serializeManifest (ML.parseYaml Fix.c6docB) := by decide
  refine ⟨by decide, by decide, by decide, by decide, fun sha => ?_⟩
  simp only [ML.hashManifest, A4.generateHash, hser]

end Vybe.Claims

namespace Vybe.ML

theorem sortedManifestKeys_eq :
    sortedManifestKeys = ["ci", "diamond_hands", "evidence", "metrics", "notifications",
      "project", "roles", "thresholds", "thunder_strike", "version", "weights"] := by decide

theorem serFiltFields_map_metricJ (K : List String) :
    ∀ l : List (String × MetricN),
      serFilt.serFiltFields K (l.map (fun kv => (kv.1, metricJ kv.2))) =
        l.map (fun kv => (kv.1, serFilt K (metricJ kv.2)))
  | [] => rfl
  | (k, v) :: rest => by
    simp only [List.map_cons, serFilt.serFiltFields, serFiltFields_map_metricJ K rest]

theorem serFilt_metricJ_filtered (mc : MetricN) :
    serFilt ["ci", "diamond_hands", "evidence", "metrics", "notifications",
      "project", "roles", "thresholds", "thunder_strike", "version", "weights"]
      (metricJ mc) =
    serFilt ["ci", "diamond_hands", "evidence", "metrics", "notifications",
      "project", "roles", "thresholds", "thunder_strike", "version", "weights"]
      (.obj []) := by
  simp [serFilt, metricJ, serFilt.serFiltFields, jlookup]

theorem jlookup_map_const {α β : Type} (k : String) (c : β) :
    ∀ l : List (String × α),
      jlookup k (l.map (fun kv => (kv.1, c))) = Option.map (fun _ => c) (jlookup k l)
  | [] => rfl
  | (k', v) :: rest => by
    by_cases h : k' = k <;> simp [jlookup, h, jlookup_map_const k c rest]

end Vybe.ML

namespace Vybe.Claims

set_option maxRecDepth 10000 in
/-- Claim C9 is false as stated: the manifests `m9a` and `m9b` agree on
their version value and on which top-level sections are present (all
eleven fields, metrics nonempty on both sides, notifications and roles
absent on both), yet their serializations — and hence their hashes, for
the concrete digest stand-in — differ, because the replacer array does
not omit a nested property whose key coincides with a top-level key
name: `m9a`'s metric is named `version`, so it survives the filter as
`"metrics":{"version":{}}` while `m9b`'s `coherence` metric is dropped. -/
theorem C9_nested_key_collision_counterexample :
    Fix.m9a.version = Fix.m9b.version ∧
    Fix.m9a.notifications.isSome = Fix.m9b.notifications.isSome ∧
    Fix.m9a.roles.isSome = Fix.m9b.roles.isSome ∧
    0 < Fix.m9a.metrics.length ∧ 0 < Fix.m9b.metrics.length ∧
    (ML.serializeManifest Fix.m9a == ML.serializeManifest Fix.m9b) = false ∧
    (ML.hashManifest Fix.idDigest Fix.m9a == ML.hashManifest Fix.idDigest Fix.m9b) = false := by
  refine ⟨rfl, rfl, rfl, by decide, by decide, by decide, by decide⟩

set_option maxHeartbeats 1000000 in
/-- Claim C9, amended: for every two manifests that agree on their
version value, on their notifications and roles fields, and on which
keys their metrics maps bind (presence per key), `hashManifest` returns
the same hash for every digest function even when every other nested
field value differs — the replacer array omits all nested properties
except those whose key equals a top-level key name (which only the
metrics map, notifications and roles can contain). -/
theorem C9_hash_depends_only_on_leaked_fields (sha : String → String)
    (m1 m2 : ML.Manifest)
    (hv : m1.version = m2.version)
    (hn : m1.notifications = m2.notifications)
    (hr : m1.roles = m2.roles)
    (hm : ∀ k : String,
      (ML.jlookup k m1.metrics).isSome = (ML.jlookup k m2.metrics).isSome) :
    ML.hashManifest sha m1 = ML.hashManifest sha m2 := by
  have hmet : ∀ k : String,
      Option.map (fun sv => A4.jsonStr k ++ ":" ++ sv)
        (ML.jlookup k (ML.serFilt.serFiltFields
          ["ci", "diamond_hands", "evidence", "metrics", "notifications", "project",
            "roles", "thresholds", "thunder_strike", "version", "weights"]
          (m1.metrics.map (fun kv => (kv.1, ML.metricJ kv.2))))) =
      Option.map (fun sv => A4.jsonStr k ++ ":" ++ sv)
        (ML.jlookup k (ML.serFilt.serFiltFields
          ["ci", "diamond_hands", "evidence", "metrics", "notifications", "project",
            "roles", "thresholds", "thunder_strike", "version", "weights"]
          (m2.metrics.map (fun kv => (kv.1, ML.metricJ kv.2))))) := by
    intro k
    rw [ML.serFiltFields_map_metricJ, ML.serFiltFields_map_metricJ]
    simp only [ML.serFilt_metricJ_filtered]
    rw [ML.jlookup_map_const, ML.jlookup_map_const]
    have hk := hm k
    cases h1 : ML.jlookup k m1.metrics <;> cases h2 : ML.jlookup k m2.metrics <;>
      rw [h1, h2] at hk <;> simp_all
  have hser : ML.serializeManifest m1 = ML.serializeManifest m2 := by
    simp only [ML.serializeManifest, ML.stringifyFiltered, ML.sortedManifestKeys_eq,
      ML.manifestObj, List.filterMap_cons, List.filterMap_nil, ML.jlookup,
      ML.serFilt, ML.serFilt.serFiltFields, ML.serFilt.serFiltList,
      Option.map_none', Option.map_some', String.reduceEq, reduceIte, reduceCtorEq,
      hv, hn, hr, hmet]
  simp only [ML.hashManifest, A4.generateHash, hser]

/-- Witness for the amended C9: `m9a` and `m9c` agree on version,
notifications, roles and metric-key presence while every other nested
value differs, and their hashes agree. -/
theorem C9_hash_depends_only_on_leaked_fields_witness :
    ML.hashManifest Fix.idDigest Fix.m9a = ML.hashManifest Fix.idDigest Fix.m9c :=
  C9_hash_depends_only_on_leaked_fields Fix.idDigest Fix.m9a Fix.m9c rfl rfl rfl
    (fun k => by by_cases h : "version" = k <;> simp [Fix.m9a, Fix.m9c, ML.jlookup, h])

end Vybe.Claims

namespace Vybe.Claims

/-- Witness for C6 at a concrete digest function. -/
theorem C6_manifest_hash_key_order_witness :
    ML.hashManifest Fix.idDigest (ML.parseYaml Fix.c6docA) =
      ML.hashManifest Fix.idDigest (ML.parseYaml Fix.c6docB) :=
  C6_manifest_hash_key_order.2.2.2.2 Fix.idDigest

/-- Witness for C8 at a concrete comparison input. -/
theorem C8_no_error_verdict_path_witness :
    (A5.adjudicate "T" { a3Output := Fix.bundleFoo1, a4Output := Fix.bundleFoo2 }).verdict =
        A5.VerdictType.MATCH ∨
      (A5.adjudicate "T" { a3Output := Fix.bundleFoo1, a4Output := Fix.bundleFoo2 }).verdict =
        A5.VerdictType.MISMATCH ∨
      (A5.adjudicate "T" { a3Output := Fix.bundleFoo1, a4Output := Fix.bundleFoo2 }).verdict =
        A5.VerdictType.PARTIAL_MATCH :=
  C8_no_error_verdict_path.2.2 "T" { a3Output := Fix.bundleFoo1, a4Output := Fix.bundleFoo2 }

/-- Witness for C10 at a concrete input and a concrete member of its
diff list. -/
theorem C10_compare_severity_closed_witness :
    ((Fix.missingIndexDiff.severity = A5.DiffSeverity.critical ∧
        (Fix.missingIndexDiff.type = A5.DiffType.MISSING_FILE ∨
          Fix.missingIndexDiff.type = A5.DiffType.EXTRA_FILE)) ∨
      (Fix.missingIndexDiff.severity = A5.DiffSeverity.major ∧
        Fix.missingIndexDiff.type = A5.DiffType.CONTENT_DIFF)) ∧
    (A5.adjudicate "T" { a3Output := Fix.bundleFoo1, a4Output := Fix.emptyBundle }).confidence ≠
      ⟨9, 10⟩ := by
  have h := C10_compare_severity_closed "T"
    { a3Output := Fix.bundleFoo1, a4Output := Fix.emptyBundle }
  exact ⟨h.1 Fix.missingIndexDiff (by decide), h.2.2⟩

end Vybe.Claims
